import Mathlib

/-
Verification of the terraform-provider-aws mapping layer.

The development shallowly embeds three source files:
  * internal/service/quicksight/schema/visual_fields.go (expand/flatten of
    QuickSight dimension and measure fields),
  * the SecurityHub automation rule resource (schema, expand/flatten, CRUD),
  * internal/service/opensearch/authorize_vpc_endpoint_access.go (CRUD and
    paginated find helpers),
plus the Route 53 record state migrations, whose implementation is not part of
the sources (only its test file is) and is therefore modelled from the spec.

Go conventions used throughout the embedding:
  * a Go pointer or nil-able slice becomes an Option;
  * a Go nil slice and a Go empty slice are both written [] when the source
    never distinguishes them, and Option (List _) when it does;
  * Terraform framework values (types.String, types.Int64, ...) become
    Option of the carrier, none standing for the null value;
  * machine integers become Int with an explicit reduction modulo 2 ^ 32
    where the source performs an int32 conversion;
  * float64 values are only ever copied verbatim by the sources, so a float
    is modelled by its 64-bit pattern, never interpreted arithmetically.
-/

/-- Go conversion int32(v) for v : int64: the value reduced modulo 2 ^ 32
into the signed 32-bit range [-2 ^ 31, 2 ^ 31). -/
def toInt32 (n : Int) : Int :=
  (n + 2 ^ 31) % 2 ^ 32 - 2 ^ 31

/-- Outcome of a CRUD handler on the persisted state: left unchanged (no
write), removed from state, or overwritten with a new value. -/
inductive StateOutcome (σ : Type) where
  | unchanged : StateOutcome σ
  | removed : StateOutcome σ
  | written (s : σ) : StateOutcome σ
  deriving DecidableEq, Repr

/-- Result of a CRUD handler: whether an error diagnostic was added, and what
happened to the persisted state. -/
structure CrudOutcome (σ : Type) where
  errored : Bool
  state : StateOutcome σ
  deriving DecidableEq, Repr

/-- Errors surfaced by the AWS SDK calls and by the find helpers.
resourceNotFound models *awstypes.ResourceNotFoundException,
invalidAccessNotSubscribed the InvalidAccessException whose message contains
"not subscribed to AWS Security Hub", notFoundWrapped a retry.NotFoundError
wrapper, emptyResult a tfresource.EmptyResultError, tooManyResults a
tfresource.TooManyResultsError, and other any further SDK error. -/
inductive AwsError where
  | resourceNotFound
  | invalidAccessNotSubscribed
  | notFoundWrapped
  | emptyResult
  | tooManyResults
  | other (code : String)
  deriving DecidableEq, Repr

/-- Modelled from the spec: tfresource.NotFound (internal/tfresource, not
under src/) reports whether an error is a not-found error; the spec's Read
contract distinguishes "the lookup reports not-found" from other failures.
The retry.NotFoundError wrapper and the empty-result error are the two
not-found shapes produced by the embedded find helpers. -/
def AwsError.isNotFound : AwsError → Bool
  | .notFoundWrapped => true
  | .emptyResult => true
  | _ => false

/-- Modelled from the spec: tfresource.AssertSingleValueResult
(internal/tfresource, not under src/) succeeds exactly when the list has one
element, returns a not-found (empty result) error on an empty list and a
too-many-results error otherwise. -/
def assertSingleValueResult {α : Type} : List α → Except AwsError α
  | [a] => .ok a
  | [] => .error .emptyResult
  | _ => .error .tooManyResults

/-- A Go float64 moved verbatim between representations; modelled by its
64-bit pattern, since no embedded code interprets float contents. -/
structure GoFloat64 where
  bits : Nat
  deriving DecidableEq, Repr

namespace QuickSight

/-- API object types.ColumnIdentifier (fields per the AWS API reference named
in the source comments); its converters expandColumnIdentifier and
flattenColumnIdentifier live outside src/ and are modelled opaquely below. -/
structure ColumnIdentifier where
  columnName : Option String
  dataSetIdentifier : Option String
  deriving DecidableEq, Repr

/-- API object types.StringFormatConfiguration, kept opaque: the embedded
code only passes it through its off-src converters. -/
structure StringFormatConfiguration where
  payload : Option String
  deriving DecidableEq, Repr

/-- API object types.DateTimeFormatConfiguration, kept opaque: the embedded
code only passes it through its off-src converters. -/
structure DateTimeFormatConfiguration where
  payload : Option String
  deriving DecidableEq, Repr

/-- API object types.NumberFormatConfiguration, kept opaque: the embedded
code only passes it through its off-src converters. -/
structure NumberFormatConfiguration where
  payload : Option String
  deriving DecidableEq, Repr

/-- A Go interface value held in a Terraform attribute map of the legacy SDK
(map of string to interface). The dynamic type of the value matters: a Go
type assertion v.(string) succeeds only when the dynamic type is exactly
string, so the named string types the flatteners store (types.TimeGranularity,
types.CategoricalAggregationFunction) are distinct constructors. Values
produced by the off-src sub-converters (flattenColumnIdentifier and the
format-configuration flatteners, each a non-empty one-element list) are kept
opaque as the API object they carry. -/
inductive QVal where
  | str (s : String)
  | granVal (s : String)
  | catAggVal (s : String)
  | columnVal (c : ColumnIdentifier)
  | strFmtVal (c : StringFormatConfiguration)
  | dtFmtVal (c : DateTimeFormatConfiguration)
  | numFmtVal (c : NumberFormatConfiguration)
  | list (xs : List (List (String × QVal)))
  deriving Repr

/-- A Terraform attribute map, in insertion order. -/
abbrev QMap := List (String × QVal)

/-- Lookup of a key in a Terraform attribute map. -/
def QMap.find (m : QMap) (k : String) : Option QVal :=
  List.lookup k m

/-- API object types.DateDimensionField. DateGranularity is a value-typed
enum (empty string when unset); the pointer fields are Options. -/
structure DateDimensionField where
  column : Option ColumnIdentifier
  dateGranularity : String
  fieldId : Option String
  formatConfiguration : Option DateTimeFormatConfiguration
  hierarchyId : Option String
  deriving DecidableEq, Repr

/-- API object types.CategoricalDimensionField. -/
structure CategoricalDimensionField where
  column : Option ColumnIdentifier
  fieldId : Option String
  formatConfiguration : Option StringFormatConfiguration
  hierarchyId : Option String
  deriving DecidableEq, Repr

/-- API object types.NumericalDimensionField. -/
structure NumericalDimensionField where
  column : Option ColumnIdentifier
  fieldId : Option String
  formatConfiguration : Option NumberFormatConfiguration
  hierarchyId : Option String
  deriving DecidableEq, Repr

/-- API object types.DimensionField. -/
structure DimensionField where
  categoricalDimensionField : Option CategoricalDimensionField
  dateDimensionField : Option DateDimensionField
  numericalDimensionField : Option NumericalDimensionField
  deriving DecidableEq, Repr

/-- API object types.CategoricalMeasureField. AggregationFunction is a
value-typed enum (empty string when unset). -/
structure CategoricalMeasureField where
  aggregationFunction : String
  column : Option ColumnIdentifier
  fieldId : Option String
  formatConfiguration : Option StringFormatConfiguration
  deriving DecidableEq, Repr

/-- Modelled from the spec: expandColumnIdentifier is code of this repository
outside src/; per the spec, expand is the inverse mapping of flatten, so the
opaque flattened column payload is unwrapped. On any other value shape the
assertion-and-length guard of the caller fails and no column is produced. -/
def expandColumnIdentifier : QVal → Option ColumnIdentifier
  | .columnVal c => some c
  | _ => none

/-- Modelled from the spec: flattenColumnIdentifier is code of this
repository outside src/; per the spec, flatten maps the API object to its
configuration representation, modelled opaquely as a tagged payload. -/
def flattenColumnIdentifier (c : ColumnIdentifier) : QVal :=
  .columnVal c

/-- Modelled from the spec: expandStringFormatConfiguration lives outside
src/; modelled as the inverse of its flattener. -/
def expandStringFormatConfiguration : QVal → Option StringFormatConfiguration
  | .strFmtVal c => some c
  | _ => none

/-- Modelled from the spec: flattenStringFormatConfiguration lives outside
src/; modelled opaquely as a tagged payload. -/
def flattenStringFormatConfiguration (c : StringFormatConfiguration) : QVal :=
  .strFmtVal c

/-- Modelled from the spec: expandDateTimeFormatConfiguration lives outside
src/; modelled as the inverse of its flattener. -/
def expandDateTimeFormatConfiguration : QVal → Option DateTimeFormatConfiguration
  | .dtFmtVal c => some c
  | _ => none

/-- Modelled from the spec: flattenDateTimeFormatConfiguration lives outside
src/; modelled opaquely as a tagged payload. -/
def flattenDateTimeFormatConfiguration (c : DateTimeFormatConfiguration) : QVal :=
  .dtFmtVal c

/-- Modelled from the spec: expandNumberFormatConfiguration lives outside
src/; modelled as the inverse of its flattener. -/
def expandNumberFormatConfiguration : QVal → Option NumberFormatConfiguration
  | .numFmtVal c => some c
  | _ => none

/-- Source expandDateDimensionField: nil on an empty list, otherwise the
first map's attributes are copied into a fresh API object; string attributes
are taken only when the Go string type assertion succeeds and the value is
non-empty, nested one-element lists only when present and non-empty. -/
def expandDateDimensionField (tfList : List QMap) : Option DateDimensionField :=
  match tfList with
  | [] => none
  | tfMap :: _ =>
    let field : DateDimensionField :=
      { column := none, dateGranularity := "", fieldId := none
        formatConfiguration := none, hierarchyId := none }
    let field :=
      match tfMap.find "field_id" with
      | some (.str v) => if v ≠ "" then { field with fieldId := some v } else field
      | _ => field
    let field :=
      match tfMap.find "hierarchy_id" with
      | some (.str v) => if v ≠ "" then { field with hierarchyId := some v } else field
      | _ => field
    let field :=
      match tfMap.find "date_granularity" with
      | some (.str v) => if v ≠ "" then { field with dateGranularity := v } else field
      | _ => field
    let field :=
      match tfMap.find "column" with
      | some (.columnVal c) => { field with column := expandColumnIdentifier (.columnVal c) }
      | _ => field
    let field :=
      match tfMap.find "format_configuration" with
      | some (.dtFmtVal c) =>
        { field with formatConfiguration := expandDateTimeFormatConfiguration (.dtFmtVal c) }
      | _ => field
    some field

/-- Source expandCategoricalDimensionField. -/
def expandCategoricalDimensionField (tfList : List QMap) : Option CategoricalDimensionField :=
  match tfList with
  | [] => none
  | tfMap :: _ =>
    let field : CategoricalDimensionField :=
      { column := none, fieldId := none, formatConfiguration := none, hierarchyId := none }
    let field :=
      match tfMap.find "field_id" with
      | some (.str v) => if v ≠ "" then { field with fieldId := some v } else field
      | _ => field
    let field :=
      match tfMap.find "hierarchy_id" with
      | some (.str v) => if v ≠ "" then { field with hierarchyId := some v } else field
      | _ => field
    let field :=
      match tfMap.find "column" with
      | some (.columnVal c) => { field with column := expandColumnIdentifier (.columnVal c) }
      | _ => field
    let field :=
      match tfMap.find "format_configuration" with
      | some (.strFmtVal c) =>
        { field with formatConfiguration := expandStringFormatConfiguration (.strFmtVal c) }
      | _ => field
    some field

/-- Source expandNumericalDimensionField. -/
def expandNumericalDimensionField (tfList : List QMap) : Option NumericalDimensionField :=
  match tfList with
  | [] => none
  | tfMap :: _ =>
    let field : NumericalDimensionField :=
      { column := none, fieldId := none, formatConfiguration := none, hierarchyId := none }
    let field :=
      match tfMap.find "field_id" with
      | some (.str v) => if v ≠ "" then { field with fieldId := some v } else field
      | _ => field
    let field :=
      match tfMap.find "hierarchy_id" with
      | some (.str v) => if v ≠ "" then { field with hierarchyId := some v } else field
      | _ => field
    let field :=
      match tfMap.find "column" with
      | some (.columnVal c) => { field with column := expandColumnIdentifier (.columnVal c) }
      | _ => field
    let field :=
      match tfMap.find "format_configuration" with
      | some (.numFmtVal c) =>
        { field with formatConfiguration := expandNumberFormatConfiguration (.numFmtVal c) }
      | _ => field
    some field

/-- Source expandDimensionInternal: each of the three one-element sub-block
attributes is expanded only when present as a non-empty list. The Go nil-map
guard cannot fire on a well-formed attribute map and is not modelled. -/
def expandDimensionInternal (tfMap : QMap) : DimensionField :=
  let field : DimensionField :=
    { categoricalDimensionField := none, dateDimensionField := none
      numericalDimensionField := none }
  let field :=
    match tfMap.find "categorical_dimension_field" with
    | some (.list v) =>
      if v.length > 0 then
        { field with categoricalDimensionField := expandCategoricalDimensionField v }
      else field
    | _ => field
  let field :=
    match tfMap.find "date_dimension_field" with
    | some (.list v) =>
      if v.length > 0 then
        { field with dateDimensionField := expandDateDimensionField v }
      else field
    | _ => field
  let field :=
    match tfMap.find "numerical_dimension_field" with
    | some (.list v) =>
      if v.length > 0 then
        { field with numericalDimensionField := expandNumericalDimensionField v }
      else field
    | _ => field
  field

/-- Source expandDimensionFields: nil on an empty list, otherwise each map is
expanded (elements that are maps always expand to a non-nil field, so the two
skip branches of the loop cannot fire on well-formed input). -/
def expandDimensionFields (tfList : List QMap) : List DimensionField :=
  match tfList with
  | [] => []
  | l => l.map expandDimensionInternal

/-- Source expandCategoricalMeasureField. -/
def expandCategoricalMeasureField (tfList : List QMap) : Option CategoricalMeasureField :=
  match tfList with
  | [] => none
  | tfMap :: _ =>
    let field : CategoricalMeasureField :=
      { aggregationFunction := "", column := none, fieldId := none
        formatConfiguration := none }
    let field :=
      match tfMap.find "field_id" with
      | some (.str v) => if v ≠ "" then { field with fieldId := some v } else field
      | _ => field
    let field :=
      match tfMap.find "aggregation_function" with
      | some (.str v) => if v ≠ "" then { field with aggregationFunction := v } else field
      | _ => field
    let field :=
      match tfMap.find "column" with
      | some (.columnVal c) => { field with column := expandColumnIdentifier (.columnVal c) }
      | _ => field
    let field :=
      match tfMap.find "format_configuration" with
      | some (.strFmtVal c) =>
        { field with formatConfiguration := expandStringFormatConfiguration (.strFmtVal c) }
      | _ => field
    some field

/-- Source flattenDateDimensionField: a Go nil result is written []; for a
non-nil API object a one-element list of one map is built, pointer fields
only when non-nil, and date_granularity always, stored under the named enum
type types.TimeGranularity. -/
def flattenDateDimensionField : Option DateDimensionField → List QMap
  | none => []
  | some apiObject =>
    let tfMap : QMap := []
    let tfMap :=
      match apiObject.column with
      | some c => tfMap ++ [("column", flattenColumnIdentifier c)]
      | none => tfMap
    let tfMap := tfMap ++ [("date_granularity", QVal.granVal apiObject.dateGranularity)]
    let tfMap :=
      match apiObject.fieldId with
      | some v => tfMap ++ [("field_id", QVal.str v)]
      | none => tfMap
    let tfMap :=
      match apiObject.formatConfiguration with
      | some c => tfMap ++ [("format_configuration", flattenDateTimeFormatConfiguration c)]
      | none => tfMap
    let tfMap :=
      match apiObject.hierarchyId with
      | some v => tfMap ++ [("hierarchy_id", QVal.str v)]
      | none => tfMap
    [tfMap]

/-- Source flattenCategoricalMeasureField: aggregation_function is always
written, stored under the named enum type
types.CategoricalAggregationFunction; pointer fields only when non-nil. -/
def flattenCategoricalMeasureField : Option CategoricalMeasureField → List QMap
  | none => []
  | some apiObject =>
    let tfMap : QMap := [("aggregation_function", QVal.catAggVal apiObject.aggregationFunction)]
    let tfMap :=
      match apiObject.column with
      | some c => tfMap ++ [("column", flattenColumnIdentifier c)]
      | none => tfMap
    let tfMap :=
      match apiObject.fieldId with
      | some v => tfMap ++ [("field_id", QVal.str v)]
      | none => tfMap
    let tfMap :=
      match apiObject.formatConfiguration with
      | some c => tfMap ++ [("format_configuration", flattenStringFormatConfiguration c)]
      | none => tfMap
    [tfMap]

/-- Source flattenCategoricalDimensionField. -/
def flattenCategoricalDimensionField : Option CategoricalDimensionField → List QMap
  | none => []
  | some apiObject =>
    let tfMap : QMap := []
    let tfMap :=
      match apiObject.column with
      | some c => tfMap ++ [("column", flattenColumnIdentifier c)]
      | none => tfMap
    let tfMap :=
      match apiObject.fieldId with
      | some v => tfMap ++ [("field_id", QVal.str v)]
      | none => tfMap
    let tfMap :=
      match apiObject.formatConfiguration with
      | some c => tfMap ++ [("format_configuration", flattenStringFormatConfiguration c)]
      | none => tfMap
    let tfMap :=
      match apiObject.hierarchyId with
      | some v => tfMap ++ [("hierarchy_id", QVal.str v)]
      | none => tfMap
    [tfMap]

/-- Source flattenNumericalDimensionField. -/
def flattenNumericalDimensionField : Option NumericalDimensionField → List QMap
  | none => []
  | some apiObject =>
    let tfMap : QMap := []
    let tfMap :=
      match apiObject.column with
      | some c => tfMap ++ [("column", flattenColumnIdentifier c)]
      | none => tfMap
    let tfMap :=
      match apiObject.fieldId with
      | some v => tfMap ++ [("field_id", QVal.str v)]
      | none => tfMap
    let tfMap :=
      match apiObject.formatConfiguration with
      | some c =>
        tfMap ++ [("format_configuration", QVal.numFmtVal c)]
      | none => tfMap
    let tfMap :=
      match apiObject.hierarchyId with
      | some v => tfMap ++ [("hierarchy_id", QVal.str v)]
      | none => tfMap
    [tfMap]

/-- Source flattenDimensionField: nil on nil, otherwise one map holding each
non-nil variant flattened. -/
def flattenDimensionField : Option DimensionField → List QMap
  | none => []
  | some apiObject =>
    let tfMap : QMap := []
    let tfMap :=
      match apiObject.categoricalDimensionField with
      | some c =>
        tfMap ++ [("categorical_dimension_field",
          QVal.list (flattenCategoricalDimensionField (some c)))]
      | none => tfMap
    let tfMap :=
      match apiObject.dateDimensionField with
      | some c =>
        tfMap ++ [("date_dimension_field", QVal.list (flattenDateDimensionField (some c)))]
      | none => tfMap
    let tfMap :=
      match apiObject.numericalDimensionField with
      | some c =>
        tfMap ++ [("numerical_dimension_field",
          QVal.list (flattenNumericalDimensionField (some c)))]
      | none => tfMap
    [tfMap]

end QuickSight

namespace SecurityHub

/-- Terraform data model noteData: framework values, none = null. -/
structure NoteData where
  text : Option String := none
  updatedBy : Option String := none
  deriving DecidableEq, Repr

/-- Terraform data model relatedFindingsData (product_arn is the ARN custom
type, carried as its string form). -/
structure RelatedFindingsData where
  id : Option String := none
  productArn : Option String := none
  deriving DecidableEq, Repr

/-- Terraform data model severityData. -/
structure SeverityData where
  label : Option String := none
  product : Option GoFloat64 := none
  deriving DecidableEq, Repr

/-- Terraform data model workflowData. -/
structure WorkflowData where
  status : Option String := none
  deriving DecidableEq, Repr

/-- Terraform data model findingFieldsUpdateData: the list, set and map
attributes are framework collections, none = null. -/
structure FindingFieldsUpdateData where
  confidence : Option Int := none
  criticality : Option Int := none
  note : Option (List NoteData) := none
  relatedFindings : Option (List RelatedFindingsData) := none
  severity : Option (List SeverityData) := none
  types : Option (List String) := none
  userDefinedFields : Option (List (String × String)) := none
  verificationState : Option String := none
  workflow : Option (List WorkflowData) := none
  deriving DecidableEq, Repr

/-- Terraform data model actionsData. -/
structure ActionsData where
  findingFieldsUpdate : Option (List FindingFieldsUpdateData) := none
  type : Option String := none
  deriving DecidableEq, Repr

/-- Terraform data model stringFilterData. -/
structure StringFilterData where
  comparison : Option String := none
  value : Option String := none
  deriving DecidableEq, Repr

/-- Terraform data model numberFilterData. -/
structure NumberFilterData where
  eq : Option GoFloat64 := none
  gte : Option GoFloat64 := none
  lte : Option GoFloat64 := none
  deriving DecidableEq, Repr

/-- Terraform data model mapFilterData. -/
structure MapFilterData where
  comparison : Option String := none
  key : Option String := none
  value : Option String := none
  deriving DecidableEq, Repr

/-- Terraform data model dateRangeData. -/
structure DateRangeData where
  unit : Option String := none
  value : Option Int := none
  deriving DecidableEq, Repr

/-- Terraform data model dateFilterData; the Go End attribute is written
endVal because end is reserved in Lean. -/
structure DateFilterData where
  dateRange : Option (List DateRangeData) := none
  endVal : Option String := none
  start : Option String := none
  deriving DecidableEq, Repr

/-- API object awstypes.NoteUpdate. -/
structure NoteUpdate where
  text : Option String := none
  updatedBy : Option String := none
  deriving DecidableEq, Repr

/-- API object awstypes.RelatedFinding. -/
structure RelatedFinding where
  id : Option String := none
  productArn : Option String := none
  deriving DecidableEq, Repr

/-- API object awstypes.SeverityUpdate (Label is a value-typed enum, empty
string when unset). -/
structure SeverityUpdate where
  label : String := ""
  product : Option GoFloat64 := none
  deriving DecidableEq, Repr

/-- API object awstypes.WorkflowUpdate (Status is a value-typed enum). -/
structure WorkflowUpdate where
  status : String := ""
  deriving DecidableEq, Repr

/-- API object awstypes.AutomationRulesFindingFieldsUpdate. Types and
UserDefinedFields are plain Go slices/maps whose nil and empty forms are not
distinguished by the embedded code, so they are plain lists. -/
structure AutomationRulesFindingFieldsUpdate where
  confidence : Option Int := none
  criticality : Option Int := none
  note : Option NoteUpdate := none
  relatedFindings : Option (List RelatedFinding) := none
  severity : Option SeverityUpdate := none
  types : List String := []
  userDefinedFields : List (String × String) := []
  verificationState : String := ""
  workflow : Option WorkflowUpdate := none
  deriving DecidableEq, Repr

/-- API object awstypes.AutomationRulesAction (Type is a value-typed enum). -/
structure AutomationRulesAction where
  findingFieldsUpdate : Option AutomationRulesFindingFieldsUpdate := none
  type : String := ""
  deriving DecidableEq, Repr

/-- API object awstypes.StringFilter (Comparison is a value-typed enum,
Value a string pointer). -/
structure StringFilter where
  comparison : String := ""
  value : Option String := none
  deriving DecidableEq, Repr

/-- API object awstypes.NumberFilter. -/
structure NumberFilter where
  eq : Option GoFloat64 := none
  gte : Option GoFloat64 := none
  lte : Option GoFloat64 := none
  deriving DecidableEq, Repr

/-- API object awstypes.MapFilter. -/
structure MapFilter where
  comparison : String := ""
  key : Option String := none
  value : Option String := none
  deriving DecidableEq, Repr

/-- API object awstypes.DateRange (Unit is a value-typed enum, Value an
int32 pointer). -/
structure DateRange where
  unit : String := ""
  value : Option Int := none
  deriving DecidableEq, Repr

/-- API object awstypes.DateFilter; the Go End field is written endVal. -/
structure DateFilter where
  dateRange : Option DateRange := none
  endVal : Option String := none
  start : Option String := none
  deriving DecidableEq, Repr

/-- Source expandNote: nil on an empty list, otherwise both required
attributes are copied unconditionally (ValueString of a null value is the
empty string). -/
def expandNote : List NoteData → Option NoteUpdate
  | [] => none
  | tfObj :: _ =>
    some { text := some (tfObj.text.getD ""), updatedBy := some (tfObj.updatedBy.getD "") }

/-- Source expandRelatedFindings: nil on an empty list, otherwise every
element is converted with both required attributes copied unconditionally. -/
def expandRelatedFindings : List RelatedFindingsData → Option (List RelatedFinding)
  | [] => none
  | tfList =>
    some (tfList.map fun relatedFinding =>
      { id := some (relatedFinding.id.getD "")
        productArn := some (relatedFinding.productArn.getD "") })

/-- Source expandSeverity: nil on an empty list; label and product are set
only when the corresponding attribute is non-null. -/
def expandSeverity : List SeverityData → Option SeverityUpdate
  | [] => none
  | tfObj :: _ =>
    let apiObject : SeverityUpdate := {}
    let apiObject :=
      match tfObj.label with
      | some v => { apiObject with label := v }
      | none => apiObject
    let apiObject :=
      match tfObj.product with
      | some v => { apiObject with product := some v }
      | none => apiObject
    some apiObject

/-- Source expandWorkflow. -/
def expandWorkflow : List WorkflowData → Option WorkflowUpdate
  | [] => none
  | tfObj :: _ =>
    let apiObject : WorkflowUpdate := {}
    let apiObject :=
      match tfObj.status with
      | some v => { apiObject with status := v }
      | none => apiObject
    some apiObject

/-- Source expandFindingFieldsUpdate: nil on an empty list; each attribute of
the first element is copied only when non-null, the two Int64 attributes
through an int32 conversion. -/
def expandFindingFieldsUpdate :
    List FindingFieldsUpdateData → Option AutomationRulesFindingFieldsUpdate
  | [] => none
  | tfObj :: _ =>
    let apiObject : AutomationRulesFindingFieldsUpdate := {}
    let apiObject :=
      match tfObj.confidence with
      | some v => { apiObject with confidence := some (toInt32 v) }
      | none => apiObject
    let apiObject :=
      match tfObj.criticality with
      | some v => { apiObject with criticality := some (toInt32 v) }
      | none => apiObject
    let apiObject :=
      match tfObj.note with
      | some tfList => { apiObject with note := expandNote tfList }
      | none => apiObject
    let apiObject :=
      match tfObj.relatedFindings with
      | some tfList => { apiObject with relatedFindings := expandRelatedFindings tfList }
      | none => apiObject
    let apiObject :=
      match tfObj.severity with
      | some tfList => { apiObject with severity := expandSeverity tfList }
      | none => apiObject
    let apiObject :=
      match tfObj.types with
      | some v => { apiObject with types := v }
      | none => apiObject
    let apiObject :=
      match tfObj.userDefinedFields with
      | some v => { apiObject with userDefinedFields := v }
      | none => apiObject
    let apiObject :=
      match tfObj.verificationState with
      | some v => { apiObject with verificationState := v }
      | none => apiObject
    let apiObject :=
      match tfObj.workflow with
      | some tfList => { apiObject with workflow := expandWorkflow tfList }
      | none => apiObject
    some apiObject

/-- Source expandActions: nil on an empty list; per element, the
finding_fields_update block and the type attribute are set when non-null. -/
def expandActions : List ActionsData → Option (List AutomationRulesAction)
  | [] => none
  | tfList =>
    some (tfList.map fun action =>
      let apiObject : AutomationRulesAction := {}
      let apiObject :=
        match action.findingFieldsUpdate with
        | some tfl => { apiObject with findingFieldsUpdate := expandFindingFieldsUpdate tfl }
        | none => apiObject
      let apiObject :=
        match action.type with
        | some v => { apiObject with type := v }
        | none => apiObject
      apiObject)

/-- Source expandStringFilter: nil on an empty list; both attributes copied
unconditionally per element. -/
def expandStringFilter : List StringFilterData → Option (List StringFilter)
  | [] => none
  | tfList =>
    some (tfList.map fun filter =>
      { comparison := filter.comparison.getD "", value := some (filter.value.getD "") })

/-- Source expandNumberFilter: nil on an empty list; each bound copied only
when non-null. -/
def expandNumberFilter : List NumberFilterData → Option (List NumberFilter)
  | [] => none
  | tfList =>
    some (tfList.map fun filter =>
      let apiObject : NumberFilter := {}
      let apiObject :=
        match filter.eq with
        | some v => { apiObject with eq := some v }
        | none => apiObject
      let apiObject :=
        match filter.gte with
        | some v => { apiObject with gte := some v }
        | none => apiObject
      let apiObject :=
        match filter.lte with
        | some v => { apiObject with lte := some v }
        | none => apiObject
      apiObject)

/-- Source expandMapFilter: nil on an empty list; each attribute copied only
when non-null. -/
def expandMapFilter : List MapFilterData → Option (List MapFilter)
  | [] => none
  | tfList =>
    some (tfList.map fun filter =>
      let apiObject : MapFilter := {}
      let apiObject :=
        match filter.comparison with
        | some v => { apiObject with comparison := v }
        | none => apiObject
      let apiObject :=
        match filter.key with
        | some v => { apiObject with key := some v }
        | none => apiObject
      let apiObject :=
        match filter.value with
        | some v => { apiObject with value := some v }
        | none => apiObject
      apiObject)

/-- Source expandDateRange: nil on an empty list; unit and value of the first
element set when non-null, the Int64 value through an int32 conversion. -/
def expandDateRange : List DateRangeData → Option DateRange
  | [] => none
  | tfObj :: _ =>
    let apiObject : DateRange := {}
    let apiObject :=
      match tfObj.unit with
      | some v => { apiObject with unit := v }
      | none => apiObject
    let apiObject :=
      match tfObj.value with
      | some v => { apiObject with value := some (toInt32 v) }
      | none => apiObject
    some apiObject

/-- Source expandDateFilter: nil on an empty list; per element the date_range
block and the end and start attributes are set when non-null. -/
def expandDateFilter : List DateFilterData → Option (List DateFilter)
  | [] => none
  | tfList =>
    some (tfList.map fun filter =>
      let apiObject : DateFilter := {}
      let apiObject :=
        match filter.dateRange with
        | some tfl => { apiObject with dateRange := expandDateRange tfl }
        | none => apiObject
      let apiObject :=
        match filter.endVal with
        | some v => { apiObject with endVal := some v }
        | none => apiObject
      let apiObject :=
        match filter.start with
        | some v => { apiObject with start := some v }
        | none => apiObject
      apiObject)

end SecurityHub

namespace SecurityHub

/-- Terraform data model criteriaData: one framework set attribute per
finding-filter, none = null. -/
structure CriteriaData where
  awsAccountId : Option (List StringFilterData) := none
  awsAccountName : Option (List StringFilterData) := none
  companyName : Option (List StringFilterData) := none
  complianceAssociatedStandardsId : Option (List StringFilterData) := none
  complianceSecurityControlId : Option (List StringFilterData) := none
  complianceStatus : Option (List StringFilterData) := none
  confidence : Option (List NumberFilterData) := none
  createdAt : Option (List DateFilterData) := none
  criticality : Option (List NumberFilterData) := none
  description : Option (List StringFilterData) := none
  firstObservedAt : Option (List DateFilterData) := none
  generatorId : Option (List StringFilterData) := none
  id : Option (List StringFilterData) := none
  lastObservedAt : Option (List DateFilterData) := none
  noteText : Option (List StringFilterData) := none
  noteUpdatedAt : Option (List DateFilterData) := none
  noteUpdatedBy : Option (List StringFilterData) := none
  productArn : Option (List StringFilterData) := none
  productName : Option (List StringFilterData) := none
  recordState : Option (List StringFilterData) := none
  relatedFindingsId : Option (List StringFilterData) := none
  relatedFindingsProductArn : Option (List StringFilterData) := none
  resourceApplicationArn : Option (List StringFilterData) := none
  resourceApplicationName : Option (List StringFilterData) := none
  resourceDetailsOther : Option (List MapFilterData) := none
  resourceId : Option (List StringFilterData) := none
  resourcePartition : Option (List StringFilterData) := none
  resourceRegion : Option (List StringFilterData) := none
  resourceTags : Option (List MapFilterData) := none
  resourceType : Option (List StringFilterData) := none
  severityLabel : Option (List StringFilterData) := none
  sourceUrl : Option (List StringFilterData) := none
  title : Option (List StringFilterData) := none
  type : Option (List StringFilterData) := none
  updatedAt : Option (List DateFilterData) := none
  userDefinedFields : Option (List MapFilterData) := none
  verificationState : Option (List StringFilterData) := none
  workflowStatus : Option (List StringFilterData) := none
  deriving DecidableEq, Repr

/-- API object awstypes.AutomationRulesFindingFilters: one nil-able filter
slice per finding attribute. -/
structure AutomationRulesFindingFilters where
  awsAccountId : Option (List StringFilter) := none
  awsAccountName : Option (List StringFilter) := none
  companyName : Option (List StringFilter) := none
  complianceAssociatedStandardsId : Option (List StringFilter) := none
  complianceSecurityControlId : Option (List StringFilter) := none
  complianceStatus : Option (List StringFilter) := none
  confidence : Option (List NumberFilter) := none
  createdAt : Option (List DateFilter) := none
  criticality : Option (List NumberFilter) := none
  description : Option (List StringFilter) := none
  firstObservedAt : Option (List DateFilter) := none
  generatorId : Option (List StringFilter) := none
  id : Option (List StringFilter) := none
  lastObservedAt : Option (List DateFilter) := none
  noteText : Option (List StringFilter) := none
  noteUpdatedAt : Option (List DateFilter) := none
  noteUpdatedBy : Option (List StringFilter) := none
  productArn : Option (List StringFilter) := none
  productName : Option (List StringFilter) := none
  recordState : Option (List StringFilter) := none
  relatedFindingsId : Option (List StringFilter) := none
  relatedFindingsProductArn : Option (List StringFilter) := none
  resourceApplicationArn : Option (List StringFilter) := none
  resourceApplicationName : Option (List StringFilter) := none
  resourceDetailsOther : Option (List MapFilter) := none
  resourceId : Option (List StringFilter) := none
  resourcePartition : Option (List StringFilter) := none
  resourceRegion : Option (List StringFilter) := none
  resourceTags : Option (List MapFilter) := none
  resourceType : Option (List StringFilter) := none
  severityLabel : Option (List StringFilter) := none
  sourceUrl : Option (List StringFilter) := none
  title : Option (List StringFilter) := none
  type : Option (List StringFilter) := none
  updatedAt : Option (List DateFilter) := none
  userDefinedFields : Option (List MapFilter) := none
  verificationState : Option (List StringFilter) := none
  workflowStatus : Option (List StringFilter) := none
  deriving DecidableEq, Repr

/-- Null guard of the Go pattern "if !tfObj.X.IsNull()" around
expandStringFilter: a null attribute leaves the request field nil. -/
def expandStringFilterAttr : Option (List StringFilterData) → Option (List StringFilter)
  | some tfList => expandStringFilter tfList
  | none => none

/-- Null guard of the Go pattern "if !tfObj.X.IsNull()" around
expandNumberFilter. -/
def expandNumberFilterAttr : Option (List NumberFilterData) → Option (List NumberFilter)
  | some tfList => expandNumberFilter tfList
  | none => none

/-- Null guard of the Go pattern "if !tfObj.X.IsNull()" around
expandMapFilter. -/
def expandMapFilterAttr : Option (List MapFilterData) → Option (List MapFilter)
  | some tfList => expandMapFilter tfList
  | none => none

/-- Null guard of the Go pattern "if !tfObj.X.IsNull()" around
expandDateFilter (whose diagnostics cannot fire in the model). -/
def expandDateFilterAttr : Option (List DateFilterData) → Option (List DateFilter)
  | some tfList => expandDateFilter tfList
  | none => none

/-- Source expandCriteria: nil on an empty list; each of the 38 filter
attributes of the first element is expanded only when non-null. Each Go
if-statement assigns one distinct field of a freshly zero-valued
AutomationRulesFindingFilters, rendered as one record literal whose fields
stay nil when the attribute is null. -/
def expandCriteria : List CriteriaData → Option AutomationRulesFindingFilters
  | [] => none
  | tfObj :: _ =>
    some {
      awsAccountId := expandStringFilterAttr tfObj.awsAccountId
      awsAccountName := expandStringFilterAttr tfObj.awsAccountName
      companyName := expandStringFilterAttr tfObj.companyName
      complianceAssociatedStandardsId := expandStringFilterAttr tfObj.complianceAssociatedStandardsId
      complianceSecurityControlId := expandStringFilterAttr tfObj.complianceSecurityControlId
      complianceStatus := expandStringFilterAttr tfObj.complianceStatus
      confidence := expandNumberFilterAttr tfObj.confidence
      createdAt := expandDateFilterAttr tfObj.createdAt
      criticality := expandNumberFilterAttr tfObj.criticality
      description := expandStringFilterAttr tfObj.description
      firstObservedAt := expandDateFilterAttr tfObj.firstObservedAt
      generatorId := expandStringFilterAttr tfObj.generatorId
      id := expandStringFilterAttr tfObj.id
      lastObservedAt := expandDateFilterAttr tfObj.lastObservedAt
      noteText := expandStringFilterAttr tfObj.noteText
      noteUpdatedAt := expandDateFilterAttr tfObj.noteUpdatedAt
      noteUpdatedBy := expandStringFilterAttr tfObj.noteUpdatedBy
      productArn := expandStringFilterAttr tfObj.productArn
      productName := expandStringFilterAttr tfObj.productName
      recordState := expandStringFilterAttr tfObj.recordState
      relatedFindingsId := expandStringFilterAttr tfObj.relatedFindingsId
      relatedFindingsProductArn := expandStringFilterAttr tfObj.relatedFindingsProductArn
      resourceApplicationArn := expandStringFilterAttr tfObj.resourceApplicationArn
      resourceApplicationName := expandStringFilterAttr tfObj.resourceApplicationName
      resourceDetailsOther := expandMapFilterAttr tfObj.resourceDetailsOther
      resourceId := expandStringFilterAttr tfObj.resourceId
      resourcePartition := expandStringFilterAttr tfObj.resourcePartition
      resourceRegion := expandStringFilterAttr tfObj.resourceRegion
      resourceTags := expandMapFilterAttr tfObj.resourceTags
      resourceType := expandStringFilterAttr tfObj.resourceType
      severityLabel := expandStringFilterAttr tfObj.severityLabel
      sourceUrl := expandStringFilterAttr tfObj.sourceUrl
      title := expandStringFilterAttr tfObj.title
      type := expandStringFilterAttr tfObj.type
      updatedAt := expandDateFilterAttr tfObj.updatedAt
      userDefinedFields := expandMapFilterAttr tfObj.userDefinedFields
      verificationState := expandStringFilterAttr tfObj.verificationState
      workflowStatus := expandStringFilterAttr tfObj.workflowStatus
    }

end SecurityHub

namespace SecurityHub

/-- Source flattenNote: a null list on nil, otherwise a one-element list
whose object carries both pointer fields through the nil-to-null helper. -/
def flattenNote : Option NoteUpdate → Option (List NoteData)
  | none => none
  | some apiObject => some [{ text := apiObject.text, updatedBy := apiObject.updatedBy }]

/-- Source flattenRelatedFindings: a null set when the slice is nil or empty
(the source tests len == 0), otherwise one object per element; the ARN value
is carried as its string form. -/
def flattenRelatedFindings : Option (List RelatedFinding) → Option (List RelatedFindingsData)
  | none => none
  | some [] => none
  | some apiObject =>
    some (apiObject.map fun relatedFinding =>
      { id := relatedFinding.id, productArn := relatedFinding.productArn })

/-- Source flattenSeverity, which like every flattener of this resource
returns its value together with diagnostics (here a Bool, whether an error
diagnostic was appended): a null list and no diagnostic on nil; otherwise
the object map carries the enum label always but the product key only when
Product is non-nil, so with a nil Product types.ObjectValue reports the
product attribute as missing — an error diagnostic, recorded in the second
component. In that corner the object the framework builds is an unknown
placeholder; the value component records the underlying fields (product
null), which no theorem inspects while the diagnostic fires. -/
def flattenSeverity : Option SeverityUpdate → Option (List SeverityData) × Bool
  | none => (none, false)
  | some apiObject =>
    (some [{ label := some apiObject.label, product := apiObject.product }],
     apiObject.product.isNone)

/-- Source flattenWorkflow. -/
def flattenWorkflow : Option WorkflowUpdate → Option (List WorkflowData)
  | none => none
  | some apiObject => some [{ status := some apiObject.status }]

/-- Helper for the flex string-slice flattener (outside src/): a nil or
empty Go slice becomes a null framework list, otherwise the value list. -/
def flattenStringValueList (v : List String) : Option (List String) :=
  match v with
  | [] => none
  | l => some l

/-- Helper for the flex string-map flattener (outside src/): a nil or empty
Go map becomes a null framework map, otherwise the value map. -/
def flattenStringValueMap (v : List (String × String)) : Option (List (String × String)) :=
  match v with
  | [] => none
  | l => some l

/-- Source flattenFindingFieldsUpdate: a null list and no diagnostic on
nil, otherwise one object; pointer fields pass through the nil-to-null
helpers, value-typed enums are always present, nested objects go through
their flatteners. Its own object map lists all nine keys, so the only
appendable diagnostics are those of flattenSeverity, forwarded in the
second component. -/
def flattenFindingFieldsUpdate :
    Option AutomationRulesFindingFieldsUpdate →
    Option (List FindingFieldsUpdateData) × Bool
  | none => (none, false)
  | some apiObject =>
    (some [{ confidence := apiObject.confidence
             criticality := apiObject.criticality
             note := flattenNote apiObject.note
             relatedFindings := flattenRelatedFindings apiObject.relatedFindings
             severity := (flattenSeverity apiObject.severity).1
             types := flattenStringValueList apiObject.types
             userDefinedFields := flattenStringValueMap apiObject.userDefinedFields
             verificationState := some apiObject.verificationState
             workflow := flattenWorkflow apiObject.workflow }],
     (flattenSeverity apiObject.severity).2)

/-- Source flattenActions: a null set and no diagnostic on nil, otherwise
one object per element (an empty non-nil slice flattens to an empty value
set); the diagnostics appended per element are those of
flattenFindingFieldsUpdate, collected in the second component. -/
def flattenActions :
    Option (List AutomationRulesAction) → Option (List ActionsData) × Bool
  | none => (none, false)
  | some apiObject =>
    (some (apiObject.map fun action =>
       { findingFieldsUpdate := (flattenFindingFieldsUpdate action.findingFieldsUpdate).1
         type := some action.type }),
     apiObject.any fun action => (flattenFindingFieldsUpdate action.findingFieldsUpdate).2)

/-- Source flattenStringFilter: a null set on nil, otherwise one object per
element with the enum comparison always present. -/
def flattenStringFilter : Option (List StringFilter) → Option (List StringFilterData)
  | none => none
  | some apiObject =>
    some (apiObject.map fun filter =>
      { comparison := some filter.comparison, value := filter.value })

/-- Source flattenNumberFilter. -/
def flattenNumberFilter : Option (List NumberFilter) → Option (List NumberFilterData)
  | none => none
  | some apiObject =>
    some (apiObject.map fun filter =>
      { eq := filter.eq, gte := filter.gte, lte := filter.lte })

/-- Source flattenMapFilter. -/
def flattenMapFilter : Option (List MapFilter) → Option (List MapFilterData)
  | none => none
  | some apiObject =>
    some (apiObject.map fun filter =>
      { comparison := some filter.comparison, key := filter.key, value := filter.value })

/-- Source flattenDateRange: a null list on nil, otherwise one object with
the enum unit always present and the int32 value through the nil-to-null
helper. -/
def flattenDateRange : Option DateRange → Option (List DateRangeData)
  | none => none
  | some apiObject => some [{ unit := some apiObject.unit, value := apiObject.value }]

/-- Source flattenDateFilter. -/
def flattenDateFilter : Option (List DateFilter) → Option (List DateFilterData)
  | none => none
  | some apiObject =>
    some (apiObject.map fun filter =>
      { dateRange := flattenDateRange filter.dateRange
        endVal := filter.endVal
        start := filter.start })

/-- Source flattenCriteria: a null list on nil, otherwise a one-element list
whose object flattens each of the 38 filter slices through its flattener. -/
def flattenCriteria : Option AutomationRulesFindingFilters → Option (List CriteriaData)
  | none => none
  | some apiObject =>
    some [{
      awsAccountId := flattenStringFilter apiObject.awsAccountId
      awsAccountName := flattenStringFilter apiObject.awsAccountName
      companyName := flattenStringFilter apiObject.companyName
      complianceAssociatedStandardsId := flattenStringFilter apiObject.complianceAssociatedStandardsId
      complianceSecurityControlId := flattenStringFilter apiObject.complianceSecurityControlId
      complianceStatus := flattenStringFilter apiObject.complianceStatus
      confidence := flattenNumberFilter apiObject.confidence
      createdAt := flattenDateFilter apiObject.createdAt
      criticality := flattenNumberFilter apiObject.criticality
      description := flattenStringFilter apiObject.description
      firstObservedAt := flattenDateFilter apiObject.firstObservedAt
      generatorId := flattenStringFilter apiObject.generatorId
      id := flattenStringFilter apiObject.id
      lastObservedAt := flattenDateFilter apiObject.lastObservedAt
      noteText := flattenStringFilter apiObject.noteText
      noteUpdatedAt := flattenDateFilter apiObject.noteUpdatedAt
      noteUpdatedBy := flattenStringFilter apiObject.noteUpdatedBy
      productArn := flattenStringFilter apiObject.productArn
      productName := flattenStringFilter apiObject.productName
      recordState := flattenStringFilter apiObject.recordState
      relatedFindingsId := flattenStringFilter apiObject.relatedFindingsId
      relatedFindingsProductArn := flattenStringFilter apiObject.relatedFindingsProductArn
      resourceApplicationArn := flattenStringFilter apiObject.resourceApplicationArn
      resourceApplicationName := flattenStringFilter apiObject.resourceApplicationName
      resourceDetailsOther := flattenMapFilter apiObject.resourceDetailsOther
      resourceId := flattenStringFilter apiObject.resourceId
      resourcePartition := flattenStringFilter apiObject.resourcePartition
      resourceRegion := flattenStringFilter apiObject.resourceRegion
      resourceTags := flattenMapFilter apiObject.resourceTags
      resourceType := flattenStringFilter apiObject.resourceType
      severityLabel := flattenStringFilter apiObject.severityLabel
      sourceUrl := flattenStringFilter apiObject.sourceUrl
      title := flattenStringFilter apiObject.title
      type := flattenStringFilter apiObject.type
      updatedAt := flattenDateFilter apiObject.updatedAt
      userDefinedFields := flattenMapFilter apiObject.userDefinedFields
      verificationState := flattenStringFilter apiObject.verificationState
      workflowStatus := flattenStringFilter apiObject.workflowStatus
    }]

end SecurityHub

namespace SecurityHub

/-- Terraform data model automationRuleResourceModel (framework values,
none = null). -/
structure AutomationRuleModel where
  actions : Option (List ActionsData) := none
  arn : Option String := none
  criteria : Option (List CriteriaData) := none
  description : Option String := none
  id : Option String := none
  isTerminal : Option Bool := none
  ruleName : Option String := none
  ruleOrder : Option Int := none
  ruleStatus : Option String := none
  tags : Option (List (String × String)) := none
  tagsAll : Option (List (String × String)) := none
  deriving DecidableEq, Repr

/-- API object awstypes.AutomationRulesConfig, restricted to the fields the
Read handler copies (the remaining fields of the AWS type are never touched
by the sources). -/
structure AutomationRulesConfig where
  ruleArn : Option String := none
  description : Option String := none
  isTerminal : Option Bool := none
  ruleName : Option String := none
  ruleOrder : Option Int := none
  ruleStatus : String := ""
  actions : Option (List AutomationRulesAction) := none
  criteria : Option AutomationRulesFindingFilters := none
  deriving DecidableEq, Repr

/-- API output of BatchGetAutomationRules, restricted to the Rules slice the
find helper returns (UnprocessedAutomationRules is never read). -/
structure BatchGetAutomationRulesOutput where
  rules : List AutomationRulesConfig := []
  deriving DecidableEq, Repr

/-- Source findAutomationRules: a ResourceNotFoundException error code or an
InvalidAccessException mentioning "not subscribed to AWS Security Hub" is
rewrapped as a retry.NotFoundError; any other error is passed through; a nil
output yields an empty-result error; otherwise the Rules slice is returned. -/
def findAutomationRules
    (sdkResp : Except AwsError (Option BatchGetAutomationRulesOutput)) :
    Except AwsError (List AutomationRulesConfig) :=
  match sdkResp with
  | .error e =>
    if e = .resourceNotFound ∨ e = .invalidAccessNotSubscribed then
      .error .notFoundWrapped
    else
      .error e
  | .ok none => .error .emptyResult
  | .ok (some output) => .ok output.rules

/-- Source findAutomationRule (and findAutomationRuleByARN, which only
builds the one-ARN input): the rules of the BatchGet call, asserted to be a
single value. -/
def findAutomationRule
    (sdkResp : Except AwsError (Option BatchGetAutomationRulesOutput)) :
    Except AwsError AutomationRulesConfig :=
  (findAutomationRules sdkResp).bind assertSingleValueResult

/-- API input of CreateAutomationRule. -/
structure CreateAutomationRuleInput where
  description : Option String := none
  isTerminal : Option Bool := none
  ruleName : Option String := none
  ruleOrder : Option Int := none
  tags : List (String × String) := []
  actions : Option (List AutomationRulesAction) := none
  criteria : Option AutomationRulesFindingFilters := none
  ruleStatus : String := ""
  deriving DecidableEq, Repr

/-- Null guard of the Go pattern "if !data.Actions.IsNull()" around
expandActions. -/
def expandActionsAttr : Option (List ActionsData) → Option (List AutomationRulesAction)
  | some tfList => expandActions tfList
  | none => none

/-- Null guard of the Go pattern "if !data.Criteria.IsNull()" around
expandCriteria. -/
def expandCriteriaAttr : Option (List CriteriaData) → Option AutomationRulesFindingFilters
  | some tfList => expandCriteria tfList
  | none => none

/-- Request built by automationRuleResource.Create: the four scalar fields
are set unconditionally (ValueString or ValueBool of a null value giving the
zero value, RuleOrder through an int32 conversion), tags come from the
provider-wide getTagsIn, and actions, criteria and rule_status only when the
attribute is non-null. -/
def createAutomationRuleInput (data : AutomationRuleModel)
    (tagsIn : List (String × String)) : CreateAutomationRuleInput :=
  { description := some (data.description.getD "")
    isTerminal := some (data.isTerminal.getD false)
    ruleName := some (data.ruleName.getD "")
    ruleOrder := some (toInt32 (data.ruleOrder.getD 0))
    tags := tagsIn
    actions := expandActionsAttr data.actions
    criteria := expandCriteriaAttr data.criteria
    ruleStatus := (data.ruleStatus.getD "") }

/-- API output of CreateAutomationRule. -/
structure CreateAutomationRuleOutput where
  ruleArn : Option String := none
  deriving DecidableEq, Repr

/-- Source automationRuleResource.Create. An SDK error or a nil output adds
an error diagnostic and returns before any state write; otherwise the ARN is
copied into the model, the follow-up findAutomationRuleByARN read runs
(any failure of it, not-found included, is an error diagnostic with no state
write), the read rule status is copied, and the state is written. The
create and follow-up read SDK responses are the two Except parameters. -/
def automationRuleCreate (data : AutomationRuleModel)
    (createResp : Except AwsError (Option CreateAutomationRuleOutput))
    (readResp : Except AwsError (Option BatchGetAutomationRulesOutput)) :
    CrudOutcome AutomationRuleModel :=
  match createResp with
  | .error _ => { errored := true, state := .unchanged }
  | .ok none => { errored := true, state := .unchanged }
  | .ok (some out) =>
    let data := { data with arn := out.ruleArn, id := out.ruleArn }
    match findAutomationRule readResp with
    | .error _ => { errored := true, state := .unchanged }
    | .ok readOut =>
      let data := { data with ruleStatus := some readOut.ruleStatus }
      { errored := false, state := .written data }

/-- Source automationRuleResource.Read: a not-found lookup removes the
resource from state with no diagnostic; any other lookup error adds a
diagnostic and leaves state unchanged; otherwise every attribute is
refreshed from the fetched rule and the state is written. The source
appends the diagnostics of flattenActions and flattenCriteria and then
calls State.Set regardless, so a fetched rule whose severity carries a nil
Product yields an error diagnostic alongside the write; flattenCriteria
builds only complete object maps and can append none. -/
def automationRuleRead (data : AutomationRuleModel)
    (sdkResp : Except AwsError (Option BatchGetAutomationRulesOutput)) :
    CrudOutcome AutomationRuleModel :=
  match findAutomationRule sdkResp with
  | .error e =>
    if e.isNotFound then
      { errored := false, state := .removed }
    else
      { errored := true, state := .unchanged }
  | .ok out =>
    { errored := (flattenActions out.actions).2
      state := .written { data with
        arn := out.ruleArn
        description := out.description
        id := out.ruleArn
        isTerminal := out.isTerminal
        ruleName := out.ruleName
        ruleOrder := out.ruleOrder
        ruleStatus := some out.ruleStatus
        actions := (flattenActions out.actions).1
        criteria := flattenCriteria out.criteria } }

/-- API item of BatchUpdateAutomationRules. -/
structure UpdateAutomationRulesRequestItem where
  description : Option String := none
  isTerminal : Option Bool := none
  ruleArn : Option String := none
  ruleName : Option String := none
  ruleOrder : Option Int := none
  actions : Option (List AutomationRulesAction) := none
  criteria : Option AutomationRulesFindingFilters := none
  ruleStatus : String := ""
  deriving DecidableEq, Repr

/-- API input of BatchUpdateAutomationRules. -/
structure BatchUpdateAutomationRulesInput where
  updateAutomationRulesRequestItems : List UpdateAutomationRulesRequestItem := []
  deriving DecidableEq, Repr

/-- API output of BatchUpdateAutomationRules, restricted to the processed
ARNs (never read by the source, which only checks the output for nil). -/
structure BatchUpdateAutomationRulesOutput where
  processedAutomationRules : List String := []
  deriving DecidableEq, Repr

/-- Request item built by automationRuleResource.Update from the planned
values, mirroring the Create request plus the rule ARN. -/
def updateAutomationRulesRequestItem (new : AutomationRuleModel) :
    UpdateAutomationRulesRequestItem :=
  { description := some (new.description.getD "")
    isTerminal := some (new.isTerminal.getD false)
    ruleArn := some (new.arn.getD "")
    ruleName := some (new.ruleName.getD "")
    ruleOrder := some (toInt32 (new.ruleOrder.getD 0))
    actions := expandActionsAttr new.actions
    criteria := expandCriteriaAttr new.criteria
    ruleStatus := (new.ruleStatus.getD "") }

/-- Condition of automationRuleResource.Update: some of the seven compared
attributes differ between plan and state (framework Equal is value
equality). -/
def automationRuleNeedsUpdate (old new : AutomationRuleModel) : Prop :=
  new.actions ≠ old.actions ∨
  new.criteria ≠ old.criteria ∨
  new.description ≠ old.description ∨
  new.isTerminal ≠ old.isTerminal ∨
  new.ruleName ≠ old.ruleName ∨
  new.ruleOrder ≠ old.ruleOrder ∨
  new.ruleStatus ≠ old.ruleStatus

instance (old new : AutomationRuleModel) : Decidable (automationRuleNeedsUpdate old new) := by
  unfold automationRuleNeedsUpdate
  infer_instance

/-- Result of the Update handler: whether the BatchUpdateAutomationRules SDK
call was issued, the request it carried, whether an error diagnostic was
added, and the state outcome. -/
structure AutomationRuleUpdateResult where
  called : Bool
  request : Option BatchUpdateAutomationRulesInput
  errored : Bool
  state : StateOutcome AutomationRuleModel
  deriving DecidableEq, Repr

/-- Source automationRuleResource.Update: when some of the seven attributes
differ, a one-item BatchUpdateAutomationRules request is built from the plan
and issued; an SDK error or nil output adds a diagnostic and returns without
a state write; otherwise (including the no-difference case, which issues no
call) the planned values are written to state. -/
def automationRuleUpdate (old new : AutomationRuleModel)
    (sdkResp : Except AwsError (Option BatchUpdateAutomationRulesOutput)) :
    AutomationRuleUpdateResult :=
  if automationRuleNeedsUpdate old new then
    let input : BatchUpdateAutomationRulesInput :=
      { updateAutomationRulesRequestItems := [updateAutomationRulesRequestItem new] }
    match sdkResp with
    | .error _ =>
      { called := true, request := some input, errored := true, state := .unchanged }
    | .ok none =>
      { called := true, request := some input, errored := true, state := .unchanged }
    | .ok (some _) =>
      { called := true, request := some input, errored := false, state := .written new }
  else
    { called := false, request := none, errored := false, state := .written new }

/-- API input of BatchDeleteAutomationRules. -/
structure BatchDeleteAutomationRulesInput where
  automationRulesArns : List String := []
  deriving DecidableEq, Repr

/-- Source automationRuleResource.Delete: the one-ARN request is issued; a
ResourceNotFoundException returns silently, any other error adds a
diagnostic. Returns the request and whether an error diagnostic was added. -/
def automationRuleDelete (data : AutomationRuleModel) (sdkErr : Option AwsError) :
    BatchDeleteAutomationRulesInput × Bool :=
  let input : BatchDeleteAutomationRulesInput :=
    { automationRulesArns := [data.arn.getD ""] }
  match sdkErr with
  | some .resourceNotFound => (input, false)
  | some _ => (input, true)
  | none => (input, false)

end SecurityHub

namespace OpenSearch

/-- Terraform data model authorizedPrincipalData. -/
structure AuthorizedPrincipalData where
  principal : Option String := none
  principalType : Option String := none
  deriving DecidableEq, Repr

/-- API object awstypes.AuthorizedPrincipal (PrincipalType is a value-typed
enum, Principal a string pointer). -/
structure AuthorizedPrincipal where
  principal : Option String := none
  principalType : String := ""
  deriving DecidableEq, Repr

/-- Terraform data model resourceAuthorizeVpcEndpointAccessData. -/
structure AuthorizeVpcEndpointAccessData where
  account : Option String := none
  domainName : Option String := none
  authorizedPrincipal : Option (List AuthorizedPrincipalData) := none
  deriving DecidableEq, Repr

/-- API input of AuthorizeVpcEndpointAccess, built by Create from the two
ValueStringPointer fields (nil when null); the follow-up generic flex.Expand
finds no further matching field on this input and is modelled as adding
nothing and no diagnostics. -/
structure AuthorizeVpcEndpointAccessInput where
  account : Option String := none
  domainName : Option String := none
  deriving DecidableEq, Repr

/-- Request built by resourceAuthorizeVpcEndpointAccess.Create. -/
def authorizeVpcEndpointAccessInput (plan : AuthorizeVpcEndpointAccessData) :
    AuthorizeVpcEndpointAccessInput :=
  { account := plan.account, domainName := plan.domainName }

/-- API output of AuthorizeVpcEndpointAccess. -/
structure AuthorizeVpcEndpointAccessOutput where
  authorizedPrincipal : Option AuthorizedPrincipal := none
  deriving DecidableEq, Repr

/-- API output of one ListVpcEndpointAccess page, restricted to the
principal list the find helper accumulates. -/
structure ListVpcEndpointAccessOutput where
  authorizedPrincipalList : List AuthorizedPrincipal := []
  deriving DecidableEq, Repr

/-- Modelled from the spec: the generic fwflex.Flatten (outside src/) maps
the found API object back into configuration/state representation; the one
field it can populate is the computed authorized_principal list, whose
object carries the principal pointer through nil-to-null and the value-typed
principal type as a value. -/
def flattenAuthorizedPrincipalData (p : AuthorizedPrincipal) : AuthorizedPrincipalData :=
  { principal := p.principal, principalType := some p.principalType }

/-- Source resourceAuthorizeVpcEndpointAccess.Create: an SDK error, a nil
output or a nil AuthorizedPrincipal in the output adds an error diagnostic
and returns before any state write; otherwise the output is flattened into
the plan and the state written. -/
def authorizeVpcEndpointAccessCreate (plan : AuthorizeVpcEndpointAccessData)
    (sdkResp : Except AwsError (Option AuthorizeVpcEndpointAccessOutput)) :
    CrudOutcome AuthorizeVpcEndpointAccessData :=
  match sdkResp with
  | .error _ => { errored := true, state := .unchanged }
  | .ok none => { errored := true, state := .unchanged }
  | .ok (some out) =>
    match out.authorizedPrincipal with
    | none => { errored := true, state := .unchanged }
    | some p =>
      { errored := false
        state := .written { plan with authorizedPrincipal := some [flattenAuthorizedPrincipalData p] } }

/-- Modelled from the spec: listVPCEndpointAccessPages (a generated pager,
outside src/) feeds successive pages of the ListVpcEndpointAccess call to
the source callback; a page-retrieval error stops the run and is returned.
The page stream is the Except list parameter; the source callback skips a
nil page and appends AuthorizedPrincipalList otherwise, accumulating into
output, which findAuthorizeVpcEndpointAccesses returns (nil together with
the error on failure). -/
def findAuthorizeVpcEndpointAccessesGo :
    List (Except AwsError (Option ListVpcEndpointAccessOutput)) →
    List AuthorizedPrincipal → Except AwsError (List AuthorizedPrincipal)
  | [], output => .ok output
  | .error e :: _, _ => .error e
  | .ok none :: rest, output => findAuthorizeVpcEndpointAccessesGo rest output
  | .ok (some page) :: rest, output =>
    findAuthorizeVpcEndpointAccessesGo rest (output ++ page.authorizedPrincipalList)

/-- Source findAuthorizeVpcEndpointAccesses, starting from the empty
accumulator (Go var output with nil zero value). -/
def findAuthorizeVpcEndpointAccesses
    (pages : List (Except AwsError (Option ListVpcEndpointAccessOutput))) :
    Except AwsError (List AuthorizedPrincipal) :=
  findAuthorizeVpcEndpointAccessesGo pages []

/-- Source findAuthorizeVpcEndpointAccess (and findAuthorizeVpcEndpointAccessByName,
which only builds the input): the accumulated principals asserted to be a
single value. -/
def findAuthorizeVpcEndpointAccess
    (pages : List (Except AwsError (Option ListVpcEndpointAccessOutput))) :
    Except AwsError AuthorizedPrincipal :=
  (findAuthorizeVpcEndpointAccesses pages).bind assertSingleValueResult

/-- Source resourceAuthorizeVpcEndpointAccess.Read: a not-found lookup
removes the resource from state with no diagnostic; any other lookup error
adds a diagnostic and leaves state unchanged; otherwise the found principal
is flattened into the state and the state written. -/
def authorizeVpcEndpointAccessRead (state : AuthorizeVpcEndpointAccessData)
    (pages : List (Except AwsError (Option ListVpcEndpointAccessOutput))) :
    CrudOutcome AuthorizeVpcEndpointAccessData :=
  match findAuthorizeVpcEndpointAccess pages with
  | .error e =>
    if e.isNotFound then
      { errored := false, state := .removed }
    else
      { errored := true, state := .unchanged }
  | .ok p =>
    { errored := false
      state := .written { state with authorizedPrincipal := some [flattenAuthorizedPrincipalData p] } }

/-- API input of RevokeVpcEndpointAccess, built by Delete with aws.String of
ValueString (always non-nil, empty string for a null attribute). -/
structure RevokeVpcEndpointAccessInput where
  account : Option String := none
  domainName : Option String := none
  deriving DecidableEq, Repr

/-- Source resourceAuthorizeVpcEndpointAccess.Delete: the revoke request is
issued; a ResourceNotFoundException returns silently, any other error adds a
diagnostic. Returns the request and whether an error diagnostic was added. -/
def authorizeVpcEndpointAccessDelete (state : AuthorizeVpcEndpointAccessData)
    (sdkErr : Option AwsError) : RevokeVpcEndpointAccessInput × Bool :=
  let input : RevokeVpcEndpointAccessInput :=
    { account := some (state.account.getD ""), domainName := some (state.domainName.getD "") }
  match sdkErr with
  | some .resourceNotFound => (input, false)
  | some _ => (input, true)
  | none => (input, false)

end OpenSearch

namespace Route53

/-- Persisted flatmap attributes of a legacy Terraform instance state, in
insertion order with unique keys. -/
abbrev Attrs := List (String × String)

/-- Attribute lookup. -/
def getAttr (attrs : Attrs) (k : String) : Option String :=
  List.lookup k attrs

/-- Attribute update or insertion (insertion at the end keeps keys unique). -/
def setAttr (attrs : Attrs) (k v : String) : Attrs :=
  if (getAttr attrs k).isSome then
    attrs.map fun kv => if kv.1 = k then (k, v) else kv
  else
    attrs ++ [(k, v)]

/-- Attribute deletion. -/
def delAttr (attrs : Attrs) (k : String) : Attrs :=
  attrs.filter fun kv => kv.1 ≠ k

/-- Strip of one trailing dot (Go strings.TrimSuffix with suffix "."),
written over the character list of the string. -/
def trimTrailingDot (s : String) : String :=
  if s.data.getLast? = some '.' then (s.data.dropLast).asString else s

/-- Modelled from the spec: the v0-to-v1 Route 53 record state migration is
code of this repository outside src/ (only its test is in the sources); per
the spec it strips a single trailing dot from the name attribute, leaving a
name without a trailing dot unchanged. -/
def migrateRecordStateV0toV1 (attrs : Attrs) : Attrs :=
  match getAttr attrs "name" with
  | some v => setAttr attrs "name" (trimTrailingDot v)
  | none => attrs

/-- Modelled from the spec: the v1-to-v2 Route 53 record state migration is
code of this repository outside src/ (only its test is in the sources); per
the spec it moves the flat weight and failover attributes into one-element
weighted_routing_policy and failover_routing_policy nested blocks, dropping
a weight of -1, and removes the flat attributes. -/
def migrateRecordStateV1toV2 (attrs : Attrs) : Attrs :=
  let attrs :=
    match getAttr attrs "weight" with
    | some v =>
      if v ≠ "-1" then
        setAttr (setAttr attrs "weighted_routing_policy.#" "1")
          "weighted_routing_policy.0.weight" v
      else attrs
    | none => attrs
  let attrs := delAttr attrs "weight"
  let attrs :=
    match getAttr attrs "failover" with
    | some v =>
      setAttr (setAttr attrs "failover_routing_policy.#" "1")
        "failover_routing_policy.0.type" v
    | none => attrs
  delAttr attrs "failover"

/-- Modelled from the spec: RecordMigrateState dispatches on the persisted
schema version, migrating v0 state through both steps and v1 state through
the second, and rejecting any other version (the src test drives versions 0
and 1). -/
def recordMigrateState (version : Nat) (attrs : Attrs) : Option Attrs :=
  match version with
  | 0 => some (migrateRecordStateV1toV2 (migrateRecordStateV0toV1 attrs))
  | 1 => some (migrateRecordStateV1toV2 attrs)
  | _ => none

end Route53

namespace SecurityHub

/-- Kind of a terraform-plugin-framework attribute, as declared in the
automation rule schema (required/computed flags and attribute validators are
not inspected by any claim and are not modelled). -/
inductive FwAttr where
  | stringAttr
  | int64Attr
  | float64Attr
  | boolAttr
  | listString
  | mapString
  | arnAttr
  deriving DecidableEq, Repr

/-- A terraform-plugin-framework nested block. Every block of the embedded
schema carries at most one size validator, recorded as sizeAtMost (none when
the block declares no size validator). -/
inductive FwBlock where
  | setNested (sizeAtMost : Option Nat) (attrs : List (String × FwAttr))
      (blocks : List (String × FwBlock))
  | listNested (sizeAtMost : Option Nat) (attrs : List (String × FwAttr))
      (blocks : List (String × FwBlock))
  deriving Repr

/-- Size bound declared by a block. -/
def FwBlock.sizeAtMost : FwBlock → Option Nat
  | .setNested b _ _ => b
  | .listNested b _ _ => b

/-- Nested blocks of a block. -/
def FwBlock.blocks : FwBlock → List (String × FwBlock)
  | .setNested _ _ bs => bs
  | .listNested _ _ bs => bs

/-- Nested block lookup by name. -/
def FwBlock.block (b : FwBlock) (k : String) : Option FwBlock :=
  List.lookup k b.blocks

/-- Source StringFilterSchema: a set block of at most 20 elements with the
required comparison and value attributes. -/
def StringFilterSchema : FwBlock :=
  .setNested (some 20) [("comparison", .stringAttr), ("value", .stringAttr)] []

/-- Source NumberFilterSchema: a set block of at most 20 elements with the
three optional float bounds. -/
def NumberFilterSchema : FwBlock :=
  .setNested (some 20) [("eq", .float64Attr), ("gte", .float64Attr), ("lte", .float64Attr)] []

/-- Source DateFilterSchema: a set block of at most 20 elements with the
optional end and start attributes and a one-element date_range block. -/
def DateFilterSchema : FwBlock :=
  .setNested (some 20) [("end", .stringAttr), ("start", .stringAttr)]
    [("date_range", .listNested (some 1) [("unit", .stringAttr), ("value", .int64Attr)] [])]

/-- Source MapFilterSchema: a set block of at most 20 elements with the
required comparison, key and value attributes. -/
def MapFilterSchema : FwBlock :=
  .setNested (some 20)
    [("comparison", .stringAttr), ("key", .stringAttr), ("value", .stringAttr)] []

/-- Entries of the criteria block of the automation rule schema, in source
order. -/
def criteriaSchemaBlocks : List (String × FwBlock) :=
  [("aws_account_id", StringFilterSchema),
   ("aws_account_name", StringFilterSchema),
   ("company_name", StringFilterSchema),
   ("compliance_associated_standards_id", StringFilterSchema),
   ("compliance_security_control_id", StringFilterSchema),
   ("compliance_status", StringFilterSchema),
   ("confidence", NumberFilterSchema),
   ("created_at", DateFilterSchema),
   ("criticality", NumberFilterSchema),
   ("description", StringFilterSchema),
   ("first_observed_at", DateFilterSchema),
   ("generator_id", StringFilterSchema),
   ("id", StringFilterSchema),
   ("last_observed_at", DateFilterSchema),
   ("note_text", StringFilterSchema),
   ("note_updated_at", DateFilterSchema),
   ("note_updated_by", StringFilterSchema),
   ("product_arn", StringFilterSchema),
   ("product_name", StringFilterSchema),
   ("record_state", StringFilterSchema),
   ("related_findings_id", StringFilterSchema),
   ("related_findings_product_arn", StringFilterSchema),
   ("resource_application_arn", StringFilterSchema),
   ("resource_application_name", StringFilterSchema),
   ("resource_details_other", MapFilterSchema),
   ("resource_id", StringFilterSchema),
   ("resource_partition", StringFilterSchema),
   ("resource_region", StringFilterSchema),
   ("resource_tags", MapFilterSchema),
   ("resource_type", StringFilterSchema),
   ("severity_label", StringFilterSchema),
   ("source_url", StringFilterSchema),
   ("title", StringFilterSchema),
   ("type", StringFilterSchema),
   ("updated_at", DateFilterSchema),
   ("user_defined_fields", MapFilterSchema),
   ("verification_state", StringFilterSchema),
   ("workflow_status", StringFilterSchema)]

/-- The finding_fields_update block of the actions block. -/
def findingFieldsUpdateSchema : FwBlock :=
  .listNested (some 1)
    [("confidence", .int64Attr),
     ("criticality", .int64Attr),
     ("types", .listString),
     ("user_defined_fields", .mapString),
     ("verification_state", .stringAttr)]
    [("note", .listNested (some 1) [("text", .stringAttr), ("updated_by", .stringAttr)] []),
     ("related_findings",
       .setNested none [("id", .stringAttr), ("product_arn", .arnAttr)] []),
     ("severity",
       .listNested (some 1) [("label", .stringAttr), ("product", .float64Attr)] []),
     ("workflow", .listNested (some 1) [("status", .stringAttr)] [])]

/-- Top-level attributes of the automation rule schema. -/
def automationRuleSchemaAttributes : List (String × FwAttr) :=
  [("arn", .arnAttr),
   ("description", .stringAttr),
   ("id", .stringAttr),
   ("is_terminal", .boolAttr),
   ("rule_name", .stringAttr),
   ("rule_order", .int64Attr),
   ("rule_status", .stringAttr),
   ("tags", .mapString),
   ("tags_all", .mapString)]

/-- Top-level blocks of the automation rule schema: the unbounded actions
set (holding the one-element finding_fields_update block) and the
one-element criteria block. -/
def automationRuleSchemaBlocks : List (String × FwBlock) :=
  [("actions",
     .setNested none [("type", .stringAttr)]
       [("finding_fields_update", findingFieldsUpdateSchema)]),
   ("criteria", .listNested (some 1) [] criteriaSchemaBlocks)]

end SecurityHub

namespace QuickSight

/-- A legacy-SDK schema node, restricted to the shapes the embedded file
declares: a list block with min and max item bounds, a string attribute, or
a reference to a schema helper defined outside src/. -/
inductive SdkSchema where
  | listBlock (minItems maxItems : Nat) (optional : Bool)
      (elem : List (String × SdkSchema))
  | strAttr (required : Bool)
  | subSchema (helper : String)
  deriving Repr

/-- MinItems bound of a schema node. -/
def SdkSchema.minItems : SdkSchema → Option Nat
  | .listBlock lo _ _ _ => some lo
  | _ => none

/-- MaxItems bound of a schema node. -/
def SdkSchema.maxItems : SdkSchema → Option Nat
  | .listBlock _ hi _ _ => some hi
  | _ => none

/-- Element schemas of a list block. -/
def SdkSchema.elems : SdkSchema → List (String × SdkSchema)
  | .listBlock _ _ _ es => es
  | _ => []

/-- Element schema lookup by name. -/
def SdkSchema.elem (s : SdkSchema) (k : String) : Option SdkSchema :=
  List.lookup k s.elems

/-- Source dimensionFieldSchema: an optional list of 1 to maxItems dimension
fields, each holding three one-element variant sub-blocks. -/
def dimensionFieldSchema (maxItems : Nat) : SdkSchema :=
  .listBlock 1 maxItems true
    [("categorical_dimension_field",
       .listBlock 1 1 true
         [("column", .subSchema "columnSchema"),
          ("field_id", .strAttr true),
          ("format_configuration", .subSchema "stringFormatConfigurationSchema"),
          ("hierarchy_id", .strAttr false)]),
     ("date_dimension_field",
       .listBlock 1 1 true
         [("column", .subSchema "columnSchema"),
          ("field_id", .strAttr true),
          ("date_granularity", .strAttr false),
          ("format_configuration", .subSchema "dateTimeFormatConfigurationSchema"),
          ("hierarchy_id", .strAttr false)]),
     ("numerical_dimension_field",
       .listBlock 1 1 true
         [("column", .subSchema "columnSchema"),
          ("field_id", .strAttr true),
          ("format_configuration", .subSchema "numberFormatConfigurationSchema"),
          ("hierarchy_id", .strAttr false)])]

/-- Source measureFieldSchema: an optional list of 1 to maxItems measure
fields, each holding four one-element variant sub-blocks. -/
def measureFieldSchema (maxItems : Nat) : SdkSchema :=
  .listBlock 1 maxItems true
    [("calculated_measure_field",
       .listBlock 1 1 true
         [("expression", .strAttr true),
          ("field_id", .strAttr true)]),
     ("categorical_measure_field",
       .listBlock 1 1 true
         [("column", .subSchema "columnSchema"),
          ("field_id", .strAttr true),
          ("aggregation_function", .strAttr false),
          ("format_configuration", .subSchema "stringFormatConfigurationSchema")]),
     ("date_measure_field",
       .listBlock 1 1 true
         [("column", .subSchema "columnSchema"),
          ("field_id", .strAttr true),
          ("aggregation_function", .strAttr false),
          ("format_configuration", .subSchema "dateTimeFormatConfigurationSchema")]),
     ("numerical_measure_field",
       .listBlock 1 1 true
         [("column", .subSchema "columnSchema"),
          ("field_id", .strAttr true),
          ("aggregation_function", .subSchema "numericalAggregationFunctionSchema"),
          ("format_configuration", .subSchema "numberFormatConfigurationSchema")])]

end QuickSight

/-- Contribution of one page result to the spec-side concatenation claimed
for the paginated find: the principal list of a successfully retrieved
non-nil page, nothing for a nil page. -/
def OpenSearch.pagePrincipals :
    Except AwsError (Option OpenSearch.ListVpcEndpointAccessOutput) →
    Option (List OpenSearch.AuthorizedPrincipal)
  | .ok (some page) => some page.authorizedPrincipalList
  | _ => none

/-- Characterization of expandFindingFieldsUpdate on a one-element list:
the request it builds is determined attribute-wise, a null attribute leaving
the field at its zero value and a present attribute being copied (the Int64
attributes through the int32 conversion). -/
theorem SecurityHub.expandFindingFieldsUpdate_single (o : SecurityHub.FindingFieldsUpdateData) :
    SecurityHub.expandFindingFieldsUpdate [o] = some
      { confidence := o.confidence.map toInt32
        criticality := o.criticality.map toInt32
        note := Option.bind o.note SecurityHub.expandNote
        relatedFindings := Option.bind o.relatedFindings SecurityHub.expandRelatedFindings
        severity := Option.bind o.severity SecurityHub.expandSeverity
        types := o.types.getD []
        userDefinedFields := o.userDefinedFields.getD []
        verificationState := o.verificationState.getD ""
        workflow := Option.bind o.workflow SecurityHub.expandWorkflow } := by
  obtain ⟨c, cr, n, rf, sv, ty, udf, vs, wf⟩ := o
  cases c <;> cases cr <;> cases n <;> cases rf <;> cases sv <;> cases ty <;>
    cases udf <;> cases vs <;> cases wf <;> rfl

namespace QuickSight

/-- C1 counterexample: the expand-flatten round trip fails on concrete API
objects. A DateDimensionField whose DateGranularity is YEAR comes back with
the granularity erased (flatten stores it under the named enum type, which
the expand-side string type assertion rejects); a DateDimensionField whose
FieldId points at the empty string comes back with a nil FieldId; a
CategoricalMeasureField with a COUNT aggregation function loses it the same
way the granularity is lost. -/
theorem c1_roundtrip_counterexample :
    expandDateDimensionField (flattenDateDimensionField (some
      { column := none, dateGranularity := "YEAR", fieldId := none
        formatConfiguration := none, hierarchyId := none })) ≠
      some { column := none, dateGranularity := "YEAR", fieldId := none
             formatConfiguration := none, hierarchyId := none } ∧
    expandDateDimensionField (flattenDateDimensionField (some
      { column := none, dateGranularity := "", fieldId := some ""
        formatConfiguration := none, hierarchyId := none })) ≠
      some { column := none, dateGranularity := "", fieldId := some ""
             formatConfiguration := none, hierarchyId := none } ∧
    expandCategoricalMeasureField (flattenCategoricalMeasureField (some
      { aggregationFunction := "COUNT", column := none, fieldId := none
        formatConfiguration := none })) ≠
      some { aggregationFunction := "COUNT", column := none, fieldId := none
             formatConfiguration := none } := by
  refine ⟨by decide, by decide, by decide⟩

/-- C1 amended: for every non-nil DateDimensionField whose FieldId and
HierarchyId are not pointers to the empty string, expanding the flattened
representation returns the object with its DateGranularity reset to the
empty value (the flatten stores the granularity under the named enum type,
which the expand-side string type assertion rejects); likewise for every
non-nil CategoricalMeasureField whose FieldId is not a pointer to the empty
string, the round trip resets AggregationFunction to the empty value. -/
theorem c1_roundtrip_amended (x : DateDimensionField) (y : CategoricalMeasureField)
    (hx1 : x.fieldId ≠ some "") (hx2 : x.hierarchyId ≠ some "")
    (hy1 : y.fieldId ≠ some "") :
    expandDateDimensionField (flattenDateDimensionField (some x)) =
      some { x with dateGranularity := "" } ∧
    expandCategoricalMeasureField (flattenCategoricalMeasureField (some y)) =
      some { y with aggregationFunction := "" } := by
  constructor
  · obtain ⟨c, g, f, fc, h⟩ := x
    simp only [DateDimensionField.fieldId, DateDimensionField.hierarchyId] at hx1 hx2
    cases c <;> cases f <;> cases fc <;> cases h <;>
      simp_all [expandDateDimensionField, flattenDateDimensionField, QMap.find,
        flattenColumnIdentifier, expandColumnIdentifier,
        flattenDateTimeFormatConfiguration, expandDateTimeFormatConfiguration,
        List.lookup]
  · obtain ⟨ag, c, f, fc⟩ := y
    simp only [CategoricalMeasureField.fieldId] at hy1
    cases c <;> cases f <;> cases fc <;>
      simp_all [expandCategoricalMeasureField, flattenCategoricalMeasureField, QMap.find,
        flattenColumnIdentifier, expandColumnIdentifier,
        flattenStringFormatConfiguration, expandStringFormatConfiguration,
        List.lookup]

/-- C1 amended witness: the amended round trip evaluated at a fully
populated DateDimensionField and CategoricalMeasureField. -/
theorem c1_roundtrip_amended_witness :
    expandDateDimensionField (flattenDateDimensionField (some
      { column := some { columnName := some "c", dataSetIdentifier := some "d" }
        dateGranularity := "YEAR", fieldId := some "fid"
        formatConfiguration := some { payload := some "fmt" }
        hierarchyId := some "hid" })) =
      some { column := some { columnName := some "c", dataSetIdentifier := some "d" }
             dateGranularity := "", fieldId := some "fid"
             formatConfiguration := some { payload := some "fmt" }
             hierarchyId := some "hid" } ∧
    expandCategoricalMeasureField (flattenCategoricalMeasureField (some
      { aggregationFunction := "COUNT"
        column := some { columnName := some "c", dataSetIdentifier := some "d" }
        fieldId := some "fid"
        formatConfiguration := some { payload := some "fmt" } })) =
      some { aggregationFunction := ""
             column := some { columnName := some "c", dataSetIdentifier := some "d" }
             fieldId := some "fid"
             formatConfiguration := some { payload := some "fmt" } } :=
  c1_roundtrip_amended
    { column := some { columnName := some "c", dataSetIdentifier := some "d" }
      dateGranularity := "YEAR", fieldId := some "fid"
      formatConfiguration := some { payload := some "fmt" }
      hierarchyId := some "hid" }
    { aggregationFunction := "COUNT"
      column := some { columnName := some "c", dataSetIdentifier := some "d" }
      fieldId := some "fid"
      formatConfiguration := some { payload := some "fmt" } }
    (by decide) (by decide) (by decide)

end QuickSight

/-- C2: the embedded expand functions return nil on an empty configuration
list; expandFindingFieldsUpdate leaves every request field unset exactly
when the attribute is null and copies a present attribute (the two Int64
attributes through the declared int32 narrowing, values as-is otherwise);
expandDimensionInternal leaves the date-dimension request field unset when
the attribute is absent and expands it when present and non-empty; and the
embedded flatten functions map a nil API object to nil (or a null
list/set). -/
theorem c2_expand_presence_flatten_nil :
    (QuickSight.expandDimensionFields [] = [] ∧
     QuickSight.expandDateDimensionField [] = none ∧
     QuickSight.expandCategoricalDimensionField [] = none ∧
     QuickSight.expandNumericalDimensionField [] = none ∧
     QuickSight.expandCategoricalMeasureField [] = none ∧
     SecurityHub.expandFindingFieldsUpdate [] = none ∧
     SecurityHub.expandActions [] = none ∧
     SecurityHub.expandCriteria [] = none ∧
     SecurityHub.expandNote [] = none ∧
     SecurityHub.expandRelatedFindings [] = none ∧
     SecurityHub.expandSeverity [] = none ∧
     SecurityHub.expandWorkflow [] = none ∧
     SecurityHub.expandStringFilter [] = none ∧
     SecurityHub.expandNumberFilter [] = none ∧
     SecurityHub.expandMapFilter [] = none ∧
     SecurityHub.expandDateFilter [] = none ∧
     SecurityHub.expandDateRange [] = none) ∧
    (∀ o : SecurityHub.FindingFieldsUpdateData,
      SecurityHub.expandFindingFieldsUpdate [o] = some
        { confidence := o.confidence.map toInt32
          criticality := o.criticality.map toInt32
          note := Option.bind o.note SecurityHub.expandNote
          relatedFindings := Option.bind o.relatedFindings SecurityHub.expandRelatedFindings
          severity := Option.bind o.severity SecurityHub.expandSeverity
          types := o.types.getD []
          userDefinedFields := o.userDefinedFields.getD []
          verificationState := o.verificationState.getD ""
          workflow := Option.bind o.workflow SecurityHub.expandWorkflow }) ∧
    (∀ m : QuickSight.QMap, m.find "date_dimension_field" = none →
      (QuickSight.expandDimensionInternal m).dateDimensionField = none) ∧
    (∀ (m : QuickSight.QMap) (v : List QuickSight.QMap),
      m.find "date_dimension_field" = some (.list v) → v.length > 0 →
      (QuickSight.expandDimensionInternal m).dateDimensionField =
        QuickSight.expandDateDimensionField v) ∧
    (QuickSight.flattenDateDimensionField none = [] ∧
     QuickSight.flattenCategoricalDimensionField none = [] ∧
     QuickSight.flattenNumericalDimensionField none = [] ∧
     QuickSight.flattenDimensionField none = [] ∧
     QuickSight.flattenCategoricalMeasureField none = [] ∧
     SecurityHub.flattenFindingFieldsUpdate none = (none, false) ∧
     SecurityHub.flattenActions none = (none, false) ∧
     SecurityHub.flattenCriteria none = none ∧
     SecurityHub.flattenNote none = none ∧
     SecurityHub.flattenRelatedFindings none = none ∧
     SecurityHub.flattenSeverity none = (none, false) ∧
     SecurityHub.flattenWorkflow none = none ∧
     SecurityHub.flattenStringFilter none = none ∧
     SecurityHub.flattenNumberFilter none = none ∧
     SecurityHub.flattenMapFilter none = none ∧
     SecurityHub.flattenDateFilter none = none ∧
     SecurityHub.flattenDateRange none = none) := by
  refine ⟨⟨rfl, rfl, rfl, rfl, rfl, rfl, rfl, rfl, rfl, rfl, rfl, rfl, rfl, rfl,
    rfl, rfl, rfl⟩, ?_, ?_, ?_,
    ⟨rfl, rfl, rfl, rfl, rfl, rfl, rfl, rfl, rfl, rfl, rfl, rfl, rfl, rfl, rfl,
     rfl, rfl⟩⟩
  · exact SecurityHub.expandFindingFieldsUpdate_single
  · intro m hm
    unfold QuickSight.expandDimensionInternal
    simp only [hm]
    repeat' split
    all_goals simp_all
  · intro m v hm hv
    unfold QuickSight.expandDimensionInternal
    simp only [hm]
    repeat' split
    all_goals simp_all

/-- C2 witness: the presence-checking parts evaluated at a one-attribute
finding-fields update and at concrete maps with the date dimension attribute
absent and present. -/
theorem c2_expand_presence_flatten_nil_witness :
    SecurityHub.expandFindingFieldsUpdate [{ confidence := some 5 }] = some
      { confidence := (some (5 : Int)).map toInt32
        criticality := none, note := none, relatedFindings := none
        severity := none, types := [], userDefinedFields := []
        verificationState := "", workflow := none } ∧
    (QuickSight.expandDimensionInternal
      [("field_id", QuickSight.QVal.str "a")]).dateDimensionField = none ∧
    (QuickSight.expandDimensionInternal
      [("date_dimension_field",
        QuickSight.QVal.list [[("field_id", QuickSight.QVal.str "a")]])]).dateDimensionField =
      QuickSight.expandDateDimensionField [[("field_id", QuickSight.QVal.str "a")]] := by
  refine ⟨?_, ?_, ?_⟩
  · have h := c2_expand_presence_flatten_nil.2.1 { confidence := some 5 }
    simpa using h
  · exact c2_expand_presence_flatten_nil.2.2.1 _ rfl
  · exact c2_expand_presence_flatten_nil.2.2.2.1 _ _ rfl (by decide)

/-- C3: for both resources, a failed create call (SDK error, nil output, or
for the VPC-endpoint resource an output with no principal) adds an error
diagnostic and leaves persisted state unchanged; state is written only when
the create call (and, for the automation rule, the follow-up read)
succeeded, and then without an error diagnostic. -/
theorem c3_create_failure_writes_no_state :
    (∀ (data : SecurityHub.AutomationRuleModel)
       (createResp : Except AwsError (Option SecurityHub.CreateAutomationRuleOutput))
       (readResp : Except AwsError (Option SecurityHub.BatchGetAutomationRulesOutput)),
      (∀ e, createResp = .error e →
        SecurityHub.automationRuleCreate data createResp readResp =
          { errored := true, state := .unchanged }) ∧
      (createResp = .ok none →
        SecurityHub.automationRuleCreate data createResp readResp =
          { errored := true, state := .unchanged }) ∧
      (∀ s, (SecurityHub.automationRuleCreate data createResp readResp).state = .written s →
        (SecurityHub.automationRuleCreate data createResp readResp).errored = false ∧
        (∃ out, createResp = .ok (some out)) ∧
        (∃ cfg, SecurityHub.findAutomationRule readResp = .ok cfg))) ∧
    (∀ (plan : OpenSearch.AuthorizeVpcEndpointAccessData)
       (sdkResp : Except AwsError (Option OpenSearch.AuthorizeVpcEndpointAccessOutput)),
      (∀ e, sdkResp = .error e →
        OpenSearch.authorizeVpcEndpointAccessCreate plan sdkResp =
          { errored := true, state := .unchanged }) ∧
      (sdkResp = .ok none →
        OpenSearch.authorizeVpcEndpointAccessCreate plan sdkResp =
          { errored := true, state := .unchanged }) ∧
      (∀ out, sdkResp = .ok (some out) → out.authorizedPrincipal = none →
        OpenSearch.authorizeVpcEndpointAccessCreate plan sdkResp =
          { errored := true, state := .unchanged }) ∧
      (∀ s, (OpenSearch.authorizeVpcEndpointAccessCreate plan sdkResp).state = .written s →
        (OpenSearch.authorizeVpcEndpointAccessCreate plan sdkResp).errored = false ∧
        (∃ out p, sdkResp = .ok (some out) ∧ out.authorizedPrincipal = some p))) := by
  constructor
  · intro data createResp readResp
    refine ⟨?_, ?_, ?_⟩
    · rintro e rfl
      rfl
    · rintro rfl
      rfl
    · intro s hs
      rcases createResp with e | o
      · simp [SecurityHub.automationRuleCreate] at hs
      · rcases o with _ | out
        · simp [SecurityHub.automationRuleCreate] at hs
        · rcases hread : SecurityHub.findAutomationRule readResp with e2 | cfg
          · simp [SecurityHub.automationRuleCreate, hread] at hs
          · exact ⟨by simp [SecurityHub.automationRuleCreate, hread], ⟨out, rfl⟩, ⟨cfg, rfl⟩⟩
  · intro plan sdkResp
    refine ⟨?_, ?_, ?_, ?_⟩
    · rintro e rfl
      rfl
    · rintro rfl
      rfl
    · rintro out rfl hp
      simp [OpenSearch.authorizeVpcEndpointAccessCreate, hp]
    · intro s hs
      rcases sdkResp with e | o
      · simp [OpenSearch.authorizeVpcEndpointAccessCreate] at hs
      · rcases o with _ | out
        · simp [OpenSearch.authorizeVpcEndpointAccessCreate] at hs
        · rcases hp : out.authorizedPrincipal with _ | p
          · simp [OpenSearch.authorizeVpcEndpointAccessCreate, hp] at hs
          · exact ⟨by simp [OpenSearch.authorizeVpcEndpointAccessCreate, hp], out, p, rfl, hp⟩

/-- C3 witness: both Create handlers evaluated at an SDK error, a nil
output, and (for the VPC-endpoint resource) an empty output. -/
theorem c3_create_failure_writes_no_state_witness :
    SecurityHub.automationRuleCreate {} (.error (.other "boom")) (.ok none) =
      { errored := true, state := .unchanged } ∧
    SecurityHub.automationRuleCreate {} (.ok none) (.ok none) =
      { errored := true, state := .unchanged } ∧
    OpenSearch.authorizeVpcEndpointAccessCreate {} (.ok (some { authorizedPrincipal := none })) =
      { errored := true, state := .unchanged } :=
  ⟨(c3_create_failure_writes_no_state.1 {} _ _).1 _ rfl,
   (c3_create_failure_writes_no_state.1 {} _ _).2.1 rfl,
   (c3_create_failure_writes_no_state.2 {} _).2.2.1 _ rfl rfl⟩

/-- C4: for both Read handlers, a not-found lookup removes the resource from
state with no error diagnostic, any other lookup error adds a diagnostic and
leaves state unchanged, and a successful lookup flattens the fetched API
object and writes it to state; the error flag of that write equals the
diagnostics of the flatten itself, which fire exactly when a fetched
severity update carries a nil Product (the one incomplete object map the
source can build, reported by types.ObjectValue as a missing attribute). -/
theorem c4_read_notfound_error_success :
    (∀ (data : SecurityHub.AutomationRuleModel)
       (sdkResp : Except AwsError (Option SecurityHub.BatchGetAutomationRulesOutput)),
      (∀ e, SecurityHub.findAutomationRule sdkResp = .error e →
        SecurityHub.automationRuleRead data sdkResp =
          if e.isNotFound then { errored := false, state := .removed }
          else { errored := true, state := .unchanged }) ∧
      (∀ out, SecurityHub.findAutomationRule sdkResp = .ok out →
        SecurityHub.automationRuleRead data sdkResp =
          { errored := (SecurityHub.flattenActions out.actions).2
            state := .written { data with
              arn := out.ruleArn
              description := out.description
              id := out.ruleArn
              isTerminal := out.isTerminal
              ruleName := out.ruleName
              ruleOrder := out.ruleOrder
              ruleStatus := some out.ruleStatus
              actions := (SecurityHub.flattenActions out.actions).1
              criteria := SecurityHub.flattenCriteria out.criteria } })) ∧
    (∀ s : SecurityHub.SeverityUpdate,
      (SecurityHub.flattenSeverity (some s)).2 = s.product.isNone) ∧
    (∀ (state : OpenSearch.AuthorizeVpcEndpointAccessData)
       (pages : List (Except AwsError (Option OpenSearch.ListVpcEndpointAccessOutput))),
      (∀ e, OpenSearch.findAuthorizeVpcEndpointAccess pages = .error e →
        OpenSearch.authorizeVpcEndpointAccessRead state pages =
          if e.isNotFound then { errored := false, state := .removed }
          else { errored := true, state := .unchanged }) ∧
      (∀ p, OpenSearch.findAuthorizeVpcEndpointAccess pages = .ok p →
        OpenSearch.authorizeVpcEndpointAccessRead state pages =
          { errored := false
            state := .written { state with
              authorizedPrincipal := some [OpenSearch.flattenAuthorizedPrincipalData p] } })) := by
  refine ⟨?_, ?_, ?_⟩
  · intro data sdkResp
    constructor
    · intro e he
      simp only [SecurityHub.automationRuleRead, he]
    · intro out hout
      simp only [SecurityHub.automationRuleRead, hout]
  · intro s
    rfl
  · intro state pages
    constructor
    · intro e he
      simp only [OpenSearch.authorizeVpcEndpointAccessRead, he]
    · intro p hp
      simp only [OpenSearch.authorizeVpcEndpointAccessRead, hp]

/-- C4 witness: both Read handlers evaluated at a not-found lookup (an empty
rule list and an empty page stream), at a non-not-found failure, and at
successful one-element lookups: one clean, and one whose rule carries a
severity update with a nil Product, where the flatten diagnostics surface
as the error flag alongside the write. -/
theorem c4_read_notfound_error_success_witness :
    SecurityHub.automationRuleRead {} (.ok (some { rules := [] })) =
      { errored := false, state := .removed } ∧
    SecurityHub.automationRuleRead {} (.error (.other "boom")) =
      { errored := true, state := .unchanged } ∧
    (SecurityHub.automationRuleRead {}
      (.ok (some { rules := [{ ruleArn := some "arn" }] }))).errored = false ∧
    (SecurityHub.automationRuleRead {}
      (.ok (some { rules := [{ ruleArn := some "arn", actions := some [{ findingFieldsUpdate := some { severity := some { label := "LOW" } }, type := "FINDING_FIELDS_UPDATE" }] }] }))).errored = true ∧
    (SecurityHub.flattenSeverity (some { label := "LOW" })).2 = true ∧
    OpenSearch.authorizeVpcEndpointAccessRead {} [] =
      { errored := false, state := .removed } ∧
    OpenSearch.authorizeVpcEndpointAccessRead {}
        [.ok (some { authorizedPrincipalList := [{ principal := some "p", principalType := "AWS_ACCOUNT" }] })] =
      { errored := false
        state := .written
          { authorizedPrincipal := some [OpenSearch.flattenAuthorizedPrincipalData
              { principal := some "p", principalType := "AWS_ACCOUNT" }] } } :=
  ⟨(c4_read_notfound_error_success.1 {} _).1 .emptyResult rfl,
   (c4_read_notfound_error_success.1 {} _).1 (.other "boom") rfl,
   by
     rw [(c4_read_notfound_error_success.1 {}
       (.ok (some { rules := [{ ruleArn := some "arn" }] }))).2 { ruleArn := some "arn" } rfl]
     rfl,
   by
     rw [(c4_read_notfound_error_success.1 {}
       (.ok (some { rules := [{ ruleArn := some "arn", actions := some [{ findingFieldsUpdate := some { severity := some { label := "LOW" } }, type := "FINDING_FIELDS_UPDATE" }] }] }))).2
       { ruleArn := some "arn", actions := some [{ findingFieldsUpdate := some { severity := some { label := "LOW" } }, type := "FINDING_FIELDS_UPDATE" }] } rfl]
     rfl,
   by
     rw [c4_read_notfound_error_success.2.1 { label := "LOW" }]
     rfl,
   (c4_read_notfound_error_success.2.2 {} _).1 .emptyResult rfl,
   (c4_read_notfound_error_success.2.2 {} _).2 _ rfl⟩

/-- C5: the Update handler issues the BatchUpdateAutomationRules call
exactly when some of the seven compared attributes (actions, criteria,
description, is_terminal, rule_name, rule_order, rule_status) differ between
plan and state, sends the one-item request built from the plan when it does,
makes no call and writes the plan when nothing differs, and in every
non-error run the final persisted state is the planned value. -/
theorem c5_update_call_iff_attributes_differ :
    ∀ (old new : SecurityHub.AutomationRuleModel)
      (sdkResp : Except AwsError (Option SecurityHub.BatchUpdateAutomationRulesOutput)),
      ((SecurityHub.automationRuleUpdate old new sdkResp).called = true ↔
        SecurityHub.automationRuleNeedsUpdate old new) ∧
      (¬ SecurityHub.automationRuleNeedsUpdate old new →
        SecurityHub.automationRuleUpdate old new sdkResp =
          { called := false, request := none, errored := false, state := .written new }) ∧
      (SecurityHub.automationRuleNeedsUpdate old new →
        (SecurityHub.automationRuleUpdate old new sdkResp).request =
          some { updateAutomationRulesRequestItems :=
            [SecurityHub.updateAutomationRulesRequestItem new] }) ∧
      ((SecurityHub.automationRuleUpdate old new sdkResp).errored = false →
        (SecurityHub.automationRuleUpdate old new sdkResp).state = .written new) := by
  intro old new sdkResp
  by_cases h : SecurityHub.automationRuleNeedsUpdate old new
  · rcases sdkResp with e | o
    · simp [SecurityHub.automationRuleUpdate, h]
    · rcases o with _ | out <;> simp [SecurityHub.automationRuleUpdate, h]
  · simp [SecurityHub.automationRuleUpdate, h]

/-- C5 witness: a plan differing only in description issues the call and
carries the plan-built request; an identical plan and state issue no call;
both non-error runs end in the planned state. -/
theorem c5_update_call_iff_attributes_differ_witness :
    ((SecurityHub.automationRuleUpdate {} { description := some "d" } (.ok (some {}))).called
      = true) ∧
    (SecurityHub.automationRuleUpdate {} {} (.error (.other "boom")) =
      { called := false, request := none, errored := false, state := .written {} }) ∧
    ((SecurityHub.automationRuleUpdate {} { description := some "d" } (.ok (some {}))).errored
        = false →
      (SecurityHub.automationRuleUpdate {} { description := some "d" } (.ok (some {}))).state
        = .written { description := some "d" }) :=
  ⟨(c5_update_call_iff_attributes_differ {} _ _).1.mpr (by decide),
   (c5_update_call_iff_attributes_differ {} {} _).2.1 (by decide),
   (c5_update_call_iff_attributes_differ {} _ _).2.2.2⟩

/-- Accumulator lemma for the paginated find: on an error-free page stream
the runner returns the accumulator followed by the concatenated principal
lists of the non-nil pages, in page order. -/
theorem OpenSearch.findGo_no_error
    (pages : List (Except AwsError (Option OpenSearch.ListVpcEndpointAccessOutput)))
    (acc : List OpenSearch.AuthorizedPrincipal)
    (h : ∀ r ∈ pages, ∀ e, r ≠ .error e) :
    OpenSearch.findAuthorizeVpcEndpointAccessesGo pages acc =
      .ok (acc ++ (pages.filterMap OpenSearch.pagePrincipals).flatten) := by
  induction pages generalizing acc with
  | nil => simp [OpenSearch.findAuthorizeVpcEndpointAccessesGo]
  | cons r rest ih =>
    rcases r with e | o
    · exact absurd rfl (h _ (List.mem_cons_self _ _) e)
    · have hrest : ∀ r ∈ rest, ∀ e, r ≠ .error e :=
        fun r hr => h r (List.mem_cons_of_mem _ hr)
      rcases o with _ | page
      · simp [OpenSearch.findAuthorizeVpcEndpointAccessesGo, OpenSearch.pagePrincipals,
          ih acc hrest]
      · simp [OpenSearch.findAuthorizeVpcEndpointAccessesGo, OpenSearch.pagePrincipals,
          ih (acc ++ page.authorizedPrincipalList) hrest]

/-- Error propagation for the paginated find: the first page-retrieval
error aborts the run and is returned. -/
theorem OpenSearch.findGo_error
    (good rest : List (Except AwsError (Option OpenSearch.ListVpcEndpointAccessOutput)))
    (e : AwsError) (acc : List OpenSearch.AuthorizedPrincipal)
    (h : ∀ r ∈ good, ∀ e2, r ≠ .error e2) :
    OpenSearch.findAuthorizeVpcEndpointAccessesGo (good ++ .error e :: rest) acc =
      .error e := by
  induction good generalizing acc with
  | nil => simp [OpenSearch.findAuthorizeVpcEndpointAccessesGo]
  | cons r tail ih =>
    rcases r with e2 | o
    · exact absurd rfl (h _ (List.mem_cons_self _ _) e2)
    · have htail : ∀ r ∈ tail, ∀ e2, r ≠ .error e2 :=
        fun r hr => h r (List.mem_cons_of_mem _ hr)
      rcases o with _ | page <;>
        simp [OpenSearch.findAuthorizeVpcEndpointAccessesGo, ih _ htail]

/-- C6: on an error-free page stream findAuthorizeVpcEndpointAccesses
returns the concatenation, in page order, of the principal lists of the
non-nil pages; a page-retrieval error is propagated; and the single-value
find succeeds with a principal exactly when the accumulated list is that
one-element list. -/
theorem c6_paginated_find :
    (∀ pages, (∀ r ∈ pages, ∀ e, r ≠ .error e) →
      OpenSearch.findAuthorizeVpcEndpointAccesses pages =
        .ok ((pages.filterMap OpenSearch.pagePrincipals).flatten)) ∧
    (∀ good rest e, (∀ r ∈ good, ∀ e2, r ≠ .error e2) →
      OpenSearch.findAuthorizeVpcEndpointAccesses (good ++ .error e :: rest) = .error e) ∧
    (∀ pages a, OpenSearch.findAuthorizeVpcEndpointAccess pages = .ok a ↔
      OpenSearch.findAuthorizeVpcEndpointAccesses pages = .ok [a]) := by
  refine ⟨?_, ?_, ?_⟩
  · intro pages h
    simpa using OpenSearch.findGo_no_error pages [] h
  · intro good rest e h
    exact OpenSearch.findGo_error good rest e [] h
  · intro pages a
    unfold OpenSearch.findAuthorizeVpcEndpointAccess
    rcases hf : OpenSearch.findAuthorizeVpcEndpointAccesses pages with e | l
    · simp [Except.bind]
    · rcases l with _ | ⟨x, _ | ⟨y, t⟩⟩ <;> simp [Except.bind, assertSingleValueResult]

/-- C6 witness: a three-page stream with a nil page concatenates in order;
an error after one good page propagates; the single-value find at a
one-principal stream matches the one-element accumulation. -/
theorem c6_paginated_find_witness :
    OpenSearch.findAuthorizeVpcEndpointAccesses
      [.ok (some { authorizedPrincipalList := [{ principal := some "a" }] }),
       .ok none,
       .ok (some { authorizedPrincipalList := [{ principal := some "b" }] })] =
      .ok [{ principal := some "a" }, { principal := some "b" }] ∧
    OpenSearch.findAuthorizeVpcEndpointAccesses
      [.ok (some { authorizedPrincipalList := [{ principal := some "a" }] }),
       .error (.other "boom")] =
      .error (.other "boom") ∧
    (OpenSearch.findAuthorizeVpcEndpointAccess
        [.ok (some { authorizedPrincipalList := [{ principal := some "a" }] })] =
      .ok { principal := some "a" } ↔
     OpenSearch.findAuthorizeVpcEndpointAccesses
        [.ok (some { authorizedPrincipalList := [{ principal := some "a" }] })] =
      .ok [{ principal := some "a" }]) := by
  refine ⟨?_, ?_, ?_⟩
  · have h := c6_paginated_find.1
      [.ok (some { authorizedPrincipalList := [{ principal := some "a" }] }),
       .ok none,
       .ok (some { authorizedPrincipalList := [{ principal := some "b" }] })]
      (by simp)
    simpa [OpenSearch.pagePrincipals] using h
  · have h := c6_paginated_find.2.1
      [.ok (some { authorizedPrincipalList := [{ principal := some "a" }] })]
      [] (.other "boom") (by simp)
    simpa using h
  · exact c6_paginated_find.2.2 _ _

/-- C7: the modelled Route 53 record migrations transform old state to the
newer schema: migrating from version 0 strips a single trailing dot from the
name attribute and leaves a dot-free name unchanged (validated on the three
src test cases), and the version-1-to-2 migration moves the flat weight and
failover attributes into one-element weighted_routing_policy and
failover_routing_policy blocks, dropping a weight of -1 (validated on both
src test cases). -/
theorem c7_record_state_migrations :
    (∀ s, Route53.recordMigrateState 0 [("name", s)] =
      some [("name", Route53.trimTrailingDot s)]) ∧
    Route53.recordMigrateState 0 [("name", "www")] = some [("name", "www")] ∧
    Route53.recordMigrateState 0 [("name", "www.example.com.")] =
      some [("name", "www.example.com")] ∧
    Route53.recordMigrateState 0 [("name", "www.example.com")] =
      some [("name", "www.example.com")] ∧
    (∀ w f, Route53.recordMigrateState 1 [("weight", w), ("failover", f)] =
      some (if w ≠ "-1" then
        [("weighted_routing_policy.#", "1"), ("weighted_routing_policy.0.weight", w),
         ("failover_routing_policy.#", "1"), ("failover_routing_policy.0.type", f)]
      else
        [("failover_routing_policy.#", "1"), ("failover_routing_policy.0.type", f)])) ∧
    Route53.recordMigrateState 1 [("weight", "0"), ("failover", "PRIMARY")] =
      some [("weighted_routing_policy.#", "1"), ("weighted_routing_policy.0.weight", "0"),
            ("failover_routing_policy.#", "1"), ("failover_routing_policy.0.type", "PRIMARY")] ∧
    Route53.recordMigrateState 0 [("weight", "-1")] = some [] := by
  refine ⟨?_, by decide, by decide, by decide, ?_, by decide, by decide⟩
  · intro s
    simp [Route53.recordMigrateState, Route53.migrateRecordStateV0toV1,
      Route53.migrateRecordStateV1toV2, Route53.getAttr, Route53.setAttr,
      Route53.delAttr, List.lookup]
  · intro w f
    by_cases hw : w = "-1" <;>
      simp [Route53.recordMigrateState, Route53.migrateRecordStateV1toV2,
        Route53.getAttr, Route53.setAttr, Route53.delAttr, List.lookup, hw]

/-- C7 witness: the trailing-dot strip and the weight-and-failover move
evaluated at concrete inputs. -/
theorem c7_record_state_migrations_witness :
    Route53.recordMigrateState 0 [("name", "sub.example.org.")] =
      some [("name", Route53.trimTrailingDot "sub.example.org.")] ∧
    Route53.recordMigrateState 1 [("weight", "5"), ("failover", "SECONDARY")] =
      some (if ("5" : String) ≠ "-1" then
        [("weighted_routing_policy.#", "1"), ("weighted_routing_policy.0.weight", "5"),
         ("failover_routing_policy.#", "1"), ("failover_routing_policy.0.type", "SECONDARY")]
      else
        [("failover_routing_policy.#", "1"), ("failover_routing_policy.0.type", "SECONDARY")]) :=
  ⟨c7_record_state_migrations.1 "sub.example.org.",
   c7_record_state_migrations.2.2.2.2.1 "5" "SECONDARY"⟩

/-- C8: for both Delete handlers a ResourceNotFoundException from the SDK
call produces no error diagnostic (delete is idempotent at the interface),
success produces none, and any other SDK error produces one. -/
theorem c8_delete_notfound_is_success :
    (∀ data : SecurityHub.AutomationRuleModel,
      (SecurityHub.automationRuleDelete data (some .resourceNotFound)).2 = false ∧
      (SecurityHub.automationRuleDelete data none).2 = false ∧
      (∀ e, e ≠ AwsError.resourceNotFound →
        (SecurityHub.automationRuleDelete data (some e)).2 = true)) ∧
    (∀ state : OpenSearch.AuthorizeVpcEndpointAccessData,
      (OpenSearch.authorizeVpcEndpointAccessDelete state (some .resourceNotFound)).2 = false ∧
      (OpenSearch.authorizeVpcEndpointAccessDelete state none).2 = false ∧
      (∀ e, e ≠ AwsError.resourceNotFound →
        (OpenSearch.authorizeVpcEndpointAccessDelete state (some e)).2 = true)) := by
  constructor
  · intro data
    refine ⟨rfl, rfl, ?_⟩
    intro e he
    cases e <;> simp_all [SecurityHub.automationRuleDelete]
  · intro state
    refine ⟨rfl, rfl, ?_⟩
    intro e he
    cases e <;> simp_all [OpenSearch.authorizeVpcEndpointAccessDelete]

/-- C8 witness: both Delete handlers evaluated at a ResourceNotFoundException
and at another SDK error. -/
theorem c8_delete_notfound_is_success_witness :
    (SecurityHub.automationRuleDelete {} (some .resourceNotFound)).2 = false ∧
    (SecurityHub.automationRuleDelete {} (some (.other "x"))).2 = true ∧
    (OpenSearch.authorizeVpcEndpointAccessDelete {} (some .resourceNotFound)).2 = false ∧
    (OpenSearch.authorizeVpcEndpointAccessDelete {} (some (.other "x"))).2 = true :=
  ⟨(c8_delete_notfound_is_success.1 {}).1,
   (c8_delete_notfound_is_success.1 {}).2.2 _ (by decide),
   (c8_delete_notfound_is_success.2 {}).1,
   (c8_delete_notfound_is_success.2 {}).2.2 _ (by decide)⟩

/-- C9: the Int64 attributes feeding int32 API fields are narrowed with the
Go int32 conversion: the create request carries rule_order, the
finding-fields update carries confidence and criticality, and the date
range carries value, each reduced modulo 2 ^ 32 into the int32 range
[-2 ^ 31, 2 ^ 31), so out-of-range values wrap rather than being rejected. -/
theorem c9_int32_narrowing :
    (∀ (data : SecurityHub.AutomationRuleModel) (tagsIn : List (String × String)) (n : Int),
      data.ruleOrder = some n →
      (SecurityHub.createAutomationRuleInput data tagsIn).ruleOrder = some (toInt32 n)) ∧
    (∀ o : SecurityHub.FindingFieldsUpdateData,
      ∃ u, SecurityHub.expandFindingFieldsUpdate [o] = some u ∧
        u.confidence = o.confidence.map toInt32 ∧
        u.criticality = o.criticality.map toInt32) ∧
    (∀ (d : SecurityHub.DateRangeData) (n : Int), d.value = some n →
      ∃ r, SecurityHub.expandDateRange [d] = some r ∧ r.value = some (toInt32 n)) ∧
    (∀ n : Int, -(2 ^ 31) ≤ toInt32 n ∧ toInt32 n < 2 ^ 31 ∧ (toInt32 n - n) % 2 ^ 32 = 0) := by
  refine ⟨?_, ?_, ?_, ?_⟩
  · intro data tagsIn n h
    simp [SecurityHub.createAutomationRuleInput, h]
  · intro o
    exact ⟨_, SecurityHub.expandFindingFieldsUpdate_single o, rfl, rfl⟩
  · intro d n h
    rcases d with ⟨u, v⟩
    cases u <;> simp_all [SecurityHub.expandDateRange]
  · intro n
    have h31 : (2 : Int) ^ 31 = 2147483648 := by norm_num
    have h32 : (2 : Int) ^ 32 = 4294967296 := by norm_num
    unfold toInt32
    rw [h31, h32]
    omega

/-- C9 witness: a rule order and a date-range value of 2 ^ 31 are carried as
toInt32 of 2 ^ 31, which evaluates to the wrapped value -2 ^ 31. -/
theorem c9_int32_narrowing_witness :
    (SecurityHub.createAutomationRuleInput { ruleOrder := some (2 ^ 31) } []).ruleOrder =
      some (toInt32 (2 ^ 31)) ∧
    (∃ r, SecurityHub.expandDateRange [{ value := some (2 ^ 31) }] = some r ∧
      r.value = some (toInt32 (2 ^ 31))) ∧
    toInt32 (2 ^ 31) = -(2 ^ 31) :=
  ⟨c9_int32_narrowing.1 { ruleOrder := some (2 ^ 31) } [] (2 ^ 31) rfl,
   c9_int32_narrowing.2.2.1 { value := some (2 ^ 31) } (2 ^ 31) rfl,
   by decide⟩

/-- C10: the declared schemas bound every nesting level: each of the 38
filter sets under criteria admits at most 20 elements (the four filter
schema generators all declare SizeAtMost 20); the criteria,
finding_fields_update, note, severity, workflow and date_range blocks each
admit at most 1 element; and every QuickSight dimension or measure field
list requires at least 1 and at most the caller-supplied maxItems elements,
with each field-variant sub-block requiring exactly 1 element. -/
theorem c10_schema_nesting_bounds :
    SecurityHub.StringFilterSchema.sizeAtMost = some 20 ∧
    SecurityHub.NumberFilterSchema.sizeAtMost = some 20 ∧
    SecurityHub.DateFilterSchema.sizeAtMost = some 20 ∧
    SecurityHub.MapFilterSchema.sizeAtMost = some 20 ∧
    (SecurityHub.criteriaSchemaBlocks.all
      (fun kv => kv.2.sizeAtMost == some 20)) = true ∧
    (List.lookup "criteria" SecurityHub.automationRuleSchemaBlocks).map
      SecurityHub.FwBlock.sizeAtMost = some (some 1) ∧
    SecurityHub.findingFieldsUpdateSchema.sizeAtMost = some 1 ∧
    (SecurityHub.findingFieldsUpdateSchema.block "note").map
      SecurityHub.FwBlock.sizeAtMost = some (some 1) ∧
    (SecurityHub.findingFieldsUpdateSchema.block "severity").map
      SecurityHub.FwBlock.sizeAtMost = some (some 1) ∧
    (SecurityHub.findingFieldsUpdateSchema.block "workflow").map
      SecurityHub.FwBlock.sizeAtMost = some (some 1) ∧
    (SecurityHub.DateFilterSchema.block "date_range").map
      SecurityHub.FwBlock.sizeAtMost = some (some 1) ∧
    (∀ m : Nat,
      (QuickSight.dimensionFieldSchema m).minItems = some 1 ∧
      (QuickSight.dimensionFieldSchema m).maxItems = some m ∧
      ((QuickSight.dimensionFieldSchema m).elems.all
        (fun kv => kv.2.minItems == some 1 && kv.2.maxItems == some 1)) = true ∧
      (QuickSight.measureFieldSchema m).minItems = some 1 ∧
      (QuickSight.measureFieldSchema m).maxItems = some m ∧
      ((QuickSight.measureFieldSchema m).elems.all
        (fun kv => kv.2.minItems == some 1 && kv.2.maxItems == some 1)) = true) := by
  refine ⟨rfl, rfl, rfl, rfl, by rfl, rfl, rfl, rfl, rfl, rfl, rfl, ?_⟩
  intro m
  exact ⟨rfl, rfl, rfl, rfl, rfl, rfl⟩
